import Mathlib

/-!
Verification model of the pm-companies-api service: the Company data model
(`src/app/models.py`), the Marshmallow validation schema (`src/app/schemas.py`),
the HTTP resources for create/update/partial-update (`src/app/resources/companies.py`),
and the CSV export / CSV-JSON bulk load resources
(`src/app/resources/export_to.py`, `src/app/resources/import_from.py`).

The store is modelled as the list of rows of the `companies` table.  The only
uniqueness constraint declared on the table is the primary key on `id`
(models.py line 26); the `name` column (line 27) is declared `nullable=False`
with **no** `unique=True`, so a commit checks only the primary key.
Generated UUIDs and `now()` timestamps are passed in explicitly as parameters.
-/

/-- One row of the `companies` table (models.py, class Company).
Timestamps are abstracted as `Nat` ticks. -/
structure CompanyRow where
  id : String
  name : String
  description : Option String := none
  logo_url : Option String := none
  parent_id : Option String := none
  organization_id : Option String := none
  address : Option String := none
  email : Option String := none
  phone_number : Option String := none
  website : Option String := none
  created_at : Option Nat := none
  updated_at : Option Nat := none
  is_active : Bool := true
  registration_number : Option String := none
  tax_id : Option String := none
  country : Option String := none
  city : Option String := none
  postal_code : Option String := none
  employees_count : Option Int := none
deriving Repr, DecidableEq

/-- The durable table of Company rows (the Persistence Store). -/
abbrev Store := List CompanyRow

/-- models.py `Company.get_by_id`: `cls.query.get(company_id)`. -/
def Company.get_by_id (s : Store) (cid : String) : Option CompanyRow :=
  s.find? (fun r => r.id == cid)

/-- models.py `Company.get_by_name`: `cls.query.filter_by(name=name).first()`. -/
def Company.get_by_name (s : Store) (n : String) : Option CompanyRow :=
  s.find? (fun r => r.name == n)

/-- A JSON field value as seen by the resource layer: the key may be absent,
present with value `null`, or present with a (typed) value. -/
inductive JVal (α : Type) where
  | absent
  | null
  | val (a : α)
deriving Repr, DecidableEq

/-- Python `json_data.get(key)`: absent and null both give `None`. -/
def JVal.get {α : Type} : JVal α → Option α
  | .val a => some a
  | _ => none

/-- Python `json_data.get('employees_count', 0)`: absent gives the default 0,
null gives `None`, a value gives the value. -/
def JVal.getDZero : JVal Int → Option Int
  | .absent => some ((0 : Int))
  | .null => none
  | .val a => some a

/-- A (well-typed) request payload for the Company schema. -/
structure Payload where
  name : JVal String := .absent
  description : JVal String := .absent
  logo_url : JVal String := .absent
  parent_id : JVal String := .absent
  organization_id : JVal String := .absent
  address : JVal String := .absent
  email : JVal String := .absent
  phone_number : JVal String := .absent
  website : JVal String := .absent
  registration_number : JVal String := .absent
  tax_id : JVal String := .absent
  country : JVal String := .absent
  city : JVal String := .absent
  postal_code : JVal String := .absent
  employees_count : JVal Int := .absent
  is_active : JVal Bool := .absent
deriving Repr, DecidableEq

/-- Python `len` on a string: number of code points. -/
def strLen (s : String) : Nat := s.data.length

/-- Python `value.startswith(('http://', 'https://'))`. -/
def startsWithUrlScheme (v : String) : Bool :=
  List.isPrefixOf "http://".data v.data || List.isPrefixOf "https://".data v.data

/-- Python `'@' in value`. -/
def strContainsAt (v : String) : Bool := v.data.contains '@'

/-- schemas.py `validate_name`: empty check, then uniqueness against the
current store, then the 100-character limit. -/
def validate_name (s : Store) (v : String) : Option String :=
  if v = "" then some "Name cannot be empty."
  else if (Company.get_by_name s v).isSome then some "Name must be unique."
  else if strLen v > 100 then some "Name cannot exceed 100 characters."
  else none

/-- schemas.py `validate_description`: `if value and len(value) > 500`. -/
def validate_description (v : String) : Option String :=
  if v ≠ "" ∧ strLen v > 500 then some "Description cannot exceed 500 characters."
  else none

/-- schemas.py `validate_logo_url`: URL scheme check, then 255-character limit. -/
def validate_logo_url (v : String) : Option String :=
  if v ≠ "" ∧ ¬ startsWithUrlScheme v then some "Logo URL must be a valid URL."
  else if v ≠ "" ∧ strLen v > 255 then some "Logo URL cannot exceed 255 characters."
  else none

/-- schemas.py `validate_parent_id`: a non-empty value must be the id of an
existing row (the isinstance check cannot fail on a typed payload). -/
def validate_parent_id (s : Store) (v : String) : Option String :=
  if v = "" then none
  else if (Company.get_by_id s v).isSome then none
  else some "Parent company does not exist."

/-- schemas.py `validate_address`. -/
def validate_address (v : String) : Option String :=
  if v ≠ "" ∧ strLen v > 255 then some "Address cannot exceed 255 characters."
  else none

/-- schemas.py `validate_email`: 100-character limit first, then `'@' in value`. -/
def validate_email (v : String) : Option String :=
  if v ≠ "" ∧ strLen v > 100 then some "Email cannot exceed 100 characters."
  else if v ≠ "" ∧ ¬ strContainsAt v then some "Email must be a valid email address."
  else none

/-- schemas.py `validate_phone_number`. -/
def validate_phone_number (v : String) : Option String :=
  if v ≠ "" ∧ strLen v > 20 then some "Phone number cannot exceed 20 characters."
  else none

/-- schemas.py `validate_website`: URL scheme check, then 100-character limit. -/
def validate_website (v : String) : Option String :=
  if v ≠ "" ∧ ¬ startsWithUrlScheme v then some "Website must be a valid URL."
  else if v ≠ "" ∧ strLen v > 100 then some "Website cannot exceed 100 characters."
  else none

/-- schemas.py `validate_registration_number`. -/
def validate_registration_number (v : String) : Option String :=
  if v ≠ "" ∧ strLen v > 100 then some "Registration number cannot exceed 100 characters."
  else none

/-- schemas.py `validate_tax_id`. -/
def validate_tax_id (v : String) : Option String :=
  if v ≠ "" ∧ strLen v > 50 then some "Tax ID cannot exceed 50 characters."
  else none

/-- schemas.py `validate_country`. -/
def validate_country (v : String) : Option String :=
  if v ≠ "" ∧ strLen v > 100 then some "Country cannot exceed 100 characters."
  else none

/-- schemas.py `validate_city`. -/
def validate_city (v : String) : Option String :=
  if v ≠ "" ∧ strLen v > 100 then some "City cannot exceed 100 characters."
  else none

/-- schemas.py `validate_postal_code`. -/
def validate_postal_code (v : String) : Option String :=
  if v ≠ "" ∧ strLen v > 20 then some "Postal code cannot exceed 20 characters."
  else none

/-- schemas.py `validate_employees_count`: non-negative integer (the isinstance
check cannot fail on a typed payload). -/
def validate_employees_count (v : Int) : Option String :=
  if v < 0 then some "Employees count must be a non-negative integer."
  else none

/-- The schema fields that carry a validation rule (organization_id and
is_active have no `@validates` method in schemas.py). -/
inductive SchemaField where
  | name | description | logo_url | parent_id | address | email
  | phone_number | website | registration_number | tax_id
  | country | city | postal_code | employees_count
deriving Repr, DecidableEq

/-- The error-mapping key for a field. -/
def SchemaField.key : SchemaField → String
  | .name => "name"
  | .description => "description"
  | .logo_url => "logo_url"
  | .parent_id => "parent_id"
  | .address => "address"
  | .email => "email"
  | .phone_number => "phone_number"
  | .website => "website"
  | .registration_number => "registration_number"
  | .tax_id => "tax_id"
  | .country => "country"
  | .city => "city"
  | .postal_code => "postal_code"
  | .employees_count => "employees_count"

/-- All validated fields, in schema declaration order (name first). -/
def SchemaField.all : List SchemaField :=
  [.name, .description, .logo_url, .parent_id, .address, .email,
   .phone_number, .website, .registration_number, .tax_id,
   .country, .city, .postal_code, .employees_count]

/-- Errors contributed by one optional field: the validator runs only when the
field is supplied with a non-null value (marshmallow skips absent fields, and
null is allowed for every nullable column). -/
def optFieldErrs {α : Type} (key : String) (v : JVal α) (f : α → Option String) :
    List (String × String) :=
  match v with
  | .val a =>
    match f a with
    | some m => [(key, m)]
    | none => []
  | _ => []

/-- Errors contributed by one field of the payload.  The `name` column is
`nullable=False`, so in full mode a missing name is a required-field error and
a null name is always a null-field error. -/
def fieldErrs (s : Store) (part : Bool) (p : Payload) : SchemaField → List (String × String)
  | .name =>
    match p.name with
    | .absent => if part then [] else [("name", "Missing data for required field.")]
    | .null => [("name", "Field may not be null.")]
    | .val v =>
      match validate_name s v with
      | some m => [("name", m)]
      | none => []
  | .description => optFieldErrs "description" p.description validate_description
  | .logo_url => optFieldErrs "logo_url" p.logo_url validate_logo_url
  | .parent_id => optFieldErrs "parent_id" p.parent_id (validate_parent_id s)
  | .address => optFieldErrs "address" p.address validate_address
  | .email => optFieldErrs "email" p.email validate_email
  | .phone_number => optFieldErrs "phone_number" p.phone_number validate_phone_number
  | .website => optFieldErrs "website" p.website validate_website
  | .registration_number =>
    optFieldErrs "registration_number" p.registration_number validate_registration_number
  | .tax_id => optFieldErrs "tax_id" p.tax_id validate_tax_id
  | .country => optFieldErrs "country" p.country validate_country
  | .city => optFieldErrs "city" p.city validate_city
  | .postal_code => optFieldErrs "postal_code" p.postal_code validate_postal_code
  | .employees_count =>
    optFieldErrs "employees_count" p.employees_count validate_employees_count

/-- `company_schema.load(json_data, partial=part)`: every field is checked
independently and ALL field errors are collected into one mapping. -/
def schemaLoad (s : Store) (part : Bool) (p : Payload) : List (String × String) :=
  SchemaField.all.foldr (fun f acc => fieldErrs s part p f ++ acc) []

/-- Arguments of models.py `Company.create` (organization_id is not a
parameter: `create` always stores `organization_id=None`). -/
structure CreateArgs where
  name : String
  description : Option String := none
  logo_url : Option String := none
  parent_id : Option String := none
  address : Option String := none
  email : Option String := none
  phone_number : Option String := none
  website : Option String := none
  registration_number : Option String := none
  tax_id : Option String := none
  country : Option String := none
  city : Option String := none
  postal_code : Option String := none
  is_active : Bool := true
  employees_count : Option Int := none
deriving Repr, DecidableEq

/-- models.py `Company.create`: build the row (fresh uuid, organization_id
hardcoded to None, both timestamps stamped to now) and commit.  The commit
raises IntegrityError exactly when a declared uniqueness constraint is
violated; the only such constraint on the table is the primary key on `id`
(the `name` column carries no unique constraint), so the check is on `id`
alone. -/
def Company.create (s : Store) (newId : String) (now : Nat) (a : CreateArgs) :
    Except Unit (CompanyRow × Store) :=
  let row : CompanyRow :=
    { id := newId, name := a.name, description := a.description,
      logo_url := a.logo_url, parent_id := a.parent_id,
      organization_id := none, address := a.address, email := a.email,
      phone_number := a.phone_number, website := a.website,
      created_at := some now, updated_at := some now,
      is_active := a.is_active, registration_number := a.registration_number,
      tax_id := a.tax_id, country := a.country, city := a.city,
      postal_code := a.postal_code, employees_count := a.employees_count }
  if s.any (fun r => r.id == newId) then .error ()
  else .ok (row, s ++ [row])

/-- Arguments of models.py `Company.update`: every parameter defaults to
`None`, and a `None` argument leaves the attribute untouched. -/
structure UpdateArgs where
  name : Option String := none
  description : Option String := none
  logo_url : Option String := none
  parent_id : Option String := none
  organization_id : Option String := none
  address : Option String := none
  email : Option String := none
  phone_number : Option String := none
  website : Option String := none
  registration_number : Option String := none
  tax_id : Option String := none
  country : Option String := none
  city : Option String := none
  postal_code : Option String := none
  employees_count : Option Int := none
  is_active : Option Bool := none
deriving Repr, DecidableEq

/-- Python `if arg is not None: self.field = arg` for an optional column. -/
def applyOpt {α : Type} (arg cur : Option α) : Option α :=
  match arg with
  | some v => some v
  | none => cur

/-- models.py `Company.update`: set each attribute whose argument is not None,
then stamp `updated_at` and commit. -/
def Company.update (c : CompanyRow) (a : UpdateArgs) (now : Nat) : CompanyRow :=
  { c with
    name := a.name.getD c.name,
    description := applyOpt a.description c.description,
    logo_url := applyOpt a.logo_url c.logo_url,
    parent_id := applyOpt a.parent_id c.parent_id,
    organization_id := applyOpt a.organization_id c.organization_id,
    address := applyOpt a.address c.address,
    email := applyOpt a.email c.email,
    phone_number := applyOpt a.phone_number c.phone_number,
    website := applyOpt a.website c.website,
    registration_number := applyOpt a.registration_number c.registration_number,
    tax_id := applyOpt a.tax_id c.tax_id,
    country := applyOpt a.country c.country,
    city := applyOpt a.city c.city,
    postal_code := applyOpt a.postal_code c.postal_code,
    employees_count := applyOpt a.employees_count c.employees_count,
    is_active := a.is_active.getD c.is_active,
    updated_at := some now }

/-- An HTTP response of the resource layer: status code, the field-error
mapping of a 400 validation response, and the serialized row of a success. -/
structure Response where
  status : Nat
  errors : List (String × String) := []
  body : Option CompanyRow := none
deriving Repr, DecidableEq

/-- companies.py `CompanyListResource.post`: validate the full payload, then
call `Company.create` with the payload fields — omitting `parent_id` and
`is_active` (so `create` uses its defaults None / True) and defaulting
`employees_count` to 0 when the key is absent. -/
def CompanyListResource.post (s : Store) (newId : String) (now : Nat) (p : Payload) :
    Response × Store :=
  let errs := schemaLoad s false p
  if errs.isEmpty then
    match p.name with
    | .val n =>
      let a : CreateArgs :=
        { name := n, description := p.description.get, address := p.address.get,
          phone_number := p.phone_number.get, email := p.email.get,
          website := p.website.get, logo_url := p.logo_url.get,
          registration_number := p.registration_number.get,
          tax_id := p.tax_id.get, country := p.country.get, city := p.city.get,
          postal_code := p.postal_code.get,
          employees_count := p.employees_count.getDZero }
      match Company.create s newId now a with
      | .ok (row, s') => ({ status := 201, body := some row }, s')
      | .error _ => ({ status := 400 }, s)
    | _ => ({ status := 400 }, s)
  else ({ status := 400, errors := errs }, s)

/-- The `company.update(...)` keyword arguments built by `CompanyResource.put`:
every optional field is passed via `json_data.get`, so an absent or null field
becomes a None argument, and `employees_count` defaults to 0 when absent. -/
def putArgs (n : String) (p : Payload) : UpdateArgs :=
  { name := some n, description := p.description.get,
    address := p.address.get, phone_number := p.phone_number.get,
    email := p.email.get, website := p.website.get,
    logo_url := p.logo_url.get,
    registration_number := p.registration_number.get,
    tax_id := p.tax_id.get, country := p.country.get,
    city := p.city.get, postal_code := p.postal_code.get,
    employees_count := p.employees_count.getDZero }

/-- The `update_kwargs` built by `CompanyResource.patch`: a key present in the
payload contributes its value (null becoming None, which `update` skips); a
key absent from the payload is not passed at all. -/
def patchArgs (p : Payload) : UpdateArgs :=
  { name := p.name.get, description := p.description.get,
    address := p.address.get, phone_number := p.phone_number.get,
    email := p.email.get, website := p.website.get,
    logo_url := p.logo_url.get,
    registration_number := p.registration_number.get,
    tax_id := p.tax_id.get, country := p.country.get,
    city := p.city.get, postal_code := p.postal_code.get,
    employees_count := p.employees_count.get,
    is_active := p.is_active.get,
    organization_id := p.organization_id.get,
    parent_id := p.parent_id.get }

/-- companies.py `CompanyResource.put`: validate the full payload, look the row
up by id, then call `Company.update` with the same argument shape as `post`
(absent optional fields are passed as None, which `update` skips). -/
def CompanyResource.put (s : Store) (cid : String) (now : Nat) (p : Payload) :
    Response × Store :=
  let errs := schemaLoad s false p
  if errs.isEmpty then
    match Company.get_by_id s cid with
    | none => ({ status := 404 }, s)
    | some c =>
      match p.name with
      | .val n =>
        let c' := Company.update c (putArgs n p) now
        ({ status := 200, body := some c' },
         s.map (fun r => if r.id == cid then c' else r))
      | _ => ({ status := 400 }, s)
  else ({ status := 400, errors := errs }, s)

/-- companies.py `CompanyResource.patch`: validate the sparse payload with
`partial=True`, look the row up by id, then build `update_kwargs` from exactly
the keys present in the payload and call `Company.update`. -/
def CompanyResource.patch (s : Store) (cid : String) (now : Nat) (p : Payload) :
    Response × Store :=
  let errs := schemaLoad s true p
  if errs.isEmpty then
    match Company.get_by_id s cid with
    | none => ({ status := 404 }, s)
    | some c =>
      let c' := Company.update c (patchArgs p) now
      ({ status := 200, body := some c' },
       s.map (fun r => if r.id == cid then c' else r))
  else ({ status := 400, errors := errs }, s)

/-- A CSV cell for an optional string column: the csv writer renders `None`
as the empty string. -/
def optCell : Option String → String
  | none => ""
  | some s => s

/-- A CSV cell for the boolean column: Python `str(True)` / `str(False)`. -/
def boolCell (b : Bool) : String := if b then "True" else "False"

/-- The decimal digit characters, as printed by Python `str` on integers
(only values below ten arise from `Nat.digits 10`). -/
def digitChar (d : Nat) : Char :=
  if d < 10 then Char.ofNat (d + 48) else '*'

/-- Python `str` on a natural number: big-endian decimal digits. -/
def natStr (n : Nat) : String :=
  if n = 0 then "0" else ⟨(Nat.digits 10 n).reverse.map digitChar⟩

/-- Python `str` on an integer. -/
def intStr (i : Int) : String :=
  if i < 0 then "-" ++ natStr i.natAbs else natStr i.toNat

/-- A CSV cell for the employees_count column. -/
def intCell : Option Int → String
  | none => ""
  | some i => intStr i

/-- A CSV cell for a timestamp column: `isoformat()` when present, else the
empty string.  The importer drops these cells, so the rendering is opaque. -/
def tsCell : Option Nat → String
  | none => ""
  | some n => "ts-" ++ natStr n

/-- One data row of the exported CSV, keyed by the fixed 19-column header
(export_to.py, ExportCSVResource.get). -/
structure CsvRow where
  id : String
  name : String
  description : String
  logo_url : String
  parent_id : String
  organization_id : String
  address : String
  email : String
  phone_number : String
  website : String
  created_at : String
  updated_at : String
  is_active : String
  registration_number : String
  tax_id : String
  country : String
  city : String
  postal_code : String
  employees_count : String
deriving Repr, DecidableEq

/-- export_to.py: the CSV data row written for one Company record. -/
def exportRow (c : CompanyRow) : CsvRow :=
  { id := c.id, name := c.name, description := optCell c.description,
    logo_url := optCell c.logo_url, parent_id := optCell c.parent_id,
    organization_id := optCell c.organization_id, address := optCell c.address,
    email := optCell c.email, phone_number := optCell c.phone_number,
    website := optCell c.website, created_at := tsCell c.created_at,
    updated_at := tsCell c.updated_at, is_active := boolCell c.is_active,
    registration_number := optCell c.registration_number,
    tax_id := optCell c.tax_id, country := optCell c.country,
    city := optCell c.city, postal_code := optCell c.postal_code,
    employees_count := intCell c.employees_count }

/-- export_to.py `ExportCSVResource.get`: one CSV data row per record of the
store, in store order. -/
def ExportCSVResource.get (s : Store) : List CsvRow := s.map exportRow

/-- Decimal value of one digit character (the inverse of `digitChar`). -/
def charDigit (c : Char) : Option Nat :=
  if '0' ≤ c ∧ c ≤ '9' then some (c.toNat - 48) else none

/-- Decimal value of a big-endian digit-character list (Horner evaluation). -/
def digitsVal (cs : List Char) : Option Nat :=
  cs.foldl
    (fun acc c =>
      match acc, charDigit c with
      | some a, some d => some (10 * a + d)
      | _, _ => none)
    (some 0)

/-- Python `int` applied to a non-empty all-digit string. -/
def parseNatCell (s : String) : Option Nat :=
  if s.data.isEmpty then none else digitsVal s.data

/-- marshmallow Integer deserialization of a CSV cell. -/
def parseIntCell (s : String) : Option Int :=
  if s.data.head? = some '-' then
    if s.data.tail.isEmpty then none
    else (digitsVal s.data.tail).map (fun n => -(n : Int))
  else (parseNatCell s).map (fun n => (n : Int))

/-- marshmallow Boolean deserialization of a CSV cell (default truthy/falsy
string sets). -/
def parseBoolCell (s : String) : Option Bool :=
  if s ∈ ["true", "True", "TRUE", "t", "T", "1", "on", "On", "ON",
          "y", "Y", "yes", "Yes", "YES"] then some true
  else if s ∈ ["false", "False", "FALSE", "f", "F", "0", "off", "Off", "OFF",
               "n", "N", "no", "No", "NO"] then some false
  else none

/-- import_from.py CSV row preparation: an empty cell becomes None (a null
field); a non-empty cell is a present value. -/
def csvField (v : String) : JVal String :=
  if v = "" then .null else .val v

/-- Deserialization errors of the two non-string columns of a CSV row. -/
def csvDeserErrs (r : CsvRow) : List (String × String) :=
  (if r.is_active ≠ "" ∧ (parseBoolCell r.is_active).isNone then
    [("is_active", "Not a valid boolean.")]
   else []) ++
  (if r.employees_count ≠ "" ∧ (parseIntCell r.employees_count).isNone then
    [("employees_count", "Not a valid integer.")]
   else [])

/-- The payload obtained from a CSV row after dropping id/created_at/updated_at
and mapping empty cells to null.  `DictReader` supplies every header key, so no
field is absent. -/
def csvPayload (r : CsvRow) : Payload :=
  { name := csvField r.name, description := csvField r.description,
    logo_url := csvField r.logo_url, parent_id := csvField r.parent_id,
    organization_id := csvField r.organization_id,
    address := csvField r.address, email := csvField r.email,
    phone_number := csvField r.phone_number, website := csvField r.website,
    registration_number := csvField r.registration_number,
    tax_id := csvField r.tax_id, country := csvField r.country,
    city := csvField r.city, postal_code := csvField r.postal_code,
    employees_count :=
      match parseIntCell r.employees_count with
      | some i => .val i
      | none => .null,
    is_active :=
      match parseBoolCell r.is_active with
      | some b => .val b
      | none => .null }

/-- `company_schema.load` applied to one prepared CSV row: deserialization
errors and field-rule errors are collected into one mapping. -/
def loadCsv (s : Store) (r : CsvRow) : Except (List (String × String)) Payload :=
  let errs := csvDeserErrs r ++ schemaLoad s false (csvPayload r)
  if errs.isEmpty then .ok (csvPayload r) else .error errs

/-- `company_schema.load` applied to one JSON array item. -/
def loadJson (s : Store) (p : Payload) : Except (List (String × String)) Payload :=
  let errs := schemaLoad s false p
  if errs.isEmpty then .ok p else .error errs

/-- import_from.py: the `Company.create` call made for one validated row — the
validated instance's fields are passed through, except `organization_id` and
`is_active`, which are not parameters of the call (so `create` stores
organization_id None and is_active True). -/
def createArgsOfPayload (p : Payload) : CreateArgs :=
  { name :=
      match p.name with
      | .val n => n
      | _ => "",
    description := p.description.get, logo_url := p.logo_url.get,
    parent_id := p.parent_id.get, address := p.address.get,
    email := p.email.get, phone_number := p.phone_number.get,
    website := p.website.get,
    registration_number := p.registration_number.get,
    tax_id := p.tax_id.get, country := p.country.get, city := p.city.get,
    postal_code := p.postal_code.get,
    employees_count := p.employees_count.get }

/-- Running state of an import loop: records imported so far, per-row error
entries keyed by row index, the evolving store, and whether a storage error
aborted the batch. -/
structure LoopState where
  count : Nat
  errors : List (Nat × List (String × String))
  store : Store
  aborted : Bool := false
deriving Repr, DecidableEq

/-- The shared row loop of ImportJSONResource.post and ImportCSVResource.post:
a row that fails validation contributes one error entry keyed by its index and
the loop continues; a row that validates is created (and committed) at once; a
storage-layer failure raises out of the loop (rows already committed stay). -/
def importLoop {α : Type}
    (load : Store → α → Except (List (String × String)) Payload)
    (ids : Nat → String) (now : Nat) :
    LoopState → Nat → List α → LoopState
  | st, _, [] => st
  | st, idx, r :: rest =>
    match load st.store r with
    | .error e =>
      importLoop load ids now
        { st with errors := st.errors ++ [(idx, e)] } (idx + 1) rest
    | .ok p =>
      match Company.create st.store (ids st.count) now (createArgsOfPayload p) with
      | .ok (_, s') =>
        importLoop load ids now
          { st with store := s', count := st.count + 1 } (idx + 1) rest
      | .error _ => { st with aborted := true }

/-- Aggregate outcome of an import request. -/
structure ImportOutcome where
  status : Nat
  imported : Nat
  errors : List (Nat × List (String × String))
  aborted : Bool := false
deriving Repr, DecidableEq

/-- import_from.py response assembly: 200 when no error entry was recorded,
otherwise 400 when zero rows were imported and 207 (Multi-Status) when at
least one was; a storage abort is a 400. -/
def importOutcomeOf (st : LoopState) : ImportOutcome × Store :=
  if st.aborted then
    ({ status := 400, imported := st.count, errors := st.errors,
       aborted := true }, st.store)
  else if st.errors.isEmpty then
    ({ status := 200, imported := st.count, errors := [] }, st.store)
  else
    ({ status := if st.count = 0 then 400 else 207, imported := st.count,
       errors := st.errors }, st.store)

/-- import_from.py `ImportJSONResource.post` on a parsed JSON list. -/
def ImportJSONResource.post (s : Store) (ids : Nat → String) (now : Nat)
    (items : List Payload) : ImportOutcome × Store :=
  importOutcomeOf (importLoop loadJson ids now ⟨0, [], s, false⟩ 0 items)

/-- import_from.py `ImportCSVResource.post` on the parsed CSV data rows. -/
def ImportCSVResource.post (s : Store) (ids : Nat → String) (now : Nat)
    (rows : List CsvRow) : ImportOutcome × Store :=
  importOutcomeOf (importLoop loadCsv ids now ⟨0, [], s, false⟩ 0 rows)

/-- Freshness of the uuid stream: the `n` ids starting at position `lo` are
pairwise distinct and collide with no row of `s`. -/
def Avoids (ids : Nat → String) (s : Store) (lo n : Nat) : Prop :=
  (∀ i, i < n → ∀ j, j < n → i < j → ids (lo + i) ≠ ids (lo + j)) ∧
  (∀ i, i < n → ∀ r, r ∈ s → r.id ≠ ids (lo + i))

instance Avoids.instDecidable (ids : Nat → String) (s : Store) (lo n : Nat) :
    Decidable (Avoids ids s lo n) :=
  inferInstanceAs (Decidable (And _ _))

/-- An optional string column value that survives the CSV round trip and
satisfies the field's rule: either null, or a non-empty value satisfying `P`. -/
def optStrOk (P : String → Prop) : Option String → Prop
  | none => True
  | some v => v ≠ "" ∧ P v

instance optStrOk.instDecidable (P : String → Prop) [DecidablePred P]
    (o : Option String) : Decidable (optStrOk P o) :=
  match o with
  | none => .isTrue trivial
  | some v => inferInstanceAs (Decidable (v ≠ "" ∧ P v))

/-- An employees_count value accepted by its validator: null or non-negative. -/
def optIntOk : Option Int → Prop
  | none => True
  | some i => 0 ≤ i

instance optIntOk.instDecidable (o : Option Int) : Decidable (optIntOk o) :=
  match o with
  | none => .isTrue trivial
  | some i => inferInstanceAs (Decidable (0 ≤ i))

/-- A stored record whose CSV export re-validates and reproduces the record:
every field rule holds, the fields the import call drops
(parent_id, organization_id, is_active) hold their creation defaults, and no
optional string field is the empty string (an empty cell reads back as null). -/
def RowOk (c : CompanyRow) : Prop :=
  c.name ≠ "" ∧ strLen c.name ≤ 100 ∧
  c.parent_id = none ∧ c.organization_id = none ∧ c.is_active = true ∧
  optStrOk (fun v => strLen v ≤ 500) c.description ∧
  optStrOk (fun v => startsWithUrlScheme v = true ∧ strLen v ≤ 255) c.logo_url ∧
  optStrOk (fun v => strLen v ≤ 255) c.address ∧
  optStrOk (fun v => strLen v ≤ 100 ∧ strContainsAt v = true) c.email ∧
  optStrOk (fun v => strLen v ≤ 20) c.phone_number ∧
  optStrOk (fun v => startsWithUrlScheme v = true ∧ strLen v ≤ 100) c.website ∧
  optStrOk (fun v => strLen v ≤ 100) c.registration_number ∧
  optStrOk (fun v => strLen v ≤ 50) c.tax_id ∧
  optStrOk (fun v => strLen v ≤ 100) c.country ∧
  optStrOk (fun v => strLen v ≤ 100) c.city ∧
  optStrOk (fun v => strLen v ≤ 20) c.postal_code ∧
  optIntOk c.employees_count

instance RowOk.instDecidable (c : CompanyRow) : Decidable (RowOk c) :=
  inferInstanceAs (Decidable (And _ _))

/-- A store whose records all round trip and whose names are pairwise
distinct. -/
def StoreOk (s : Store) : Prop :=
  s.Pairwise (fun a b => a.name ≠ b.name) ∧ ∀ c ∈ s, RowOk c

instance StoreOk.instDecidable (s : Store) : Decidable (StoreOk s) :=
  inferInstanceAs (Decidable (And _ _))

/-- The rows the CSV importer rebuilds from an exported store: each original
record with a fresh id and fresh timestamps, in order. -/
def reIdx (ids : Nat → String) (now : Nat) : Nat → List CompanyRow → List CompanyRow
  | _, [] => []
  | k, c :: cs =>
    { c with id := ids k, created_at := some now, updated_at := some now } ::
      reIdx ids now (k + 1) cs

/-- The error list of a re-import of already-present names: one
name-uniqueness entry per row, keyed by consecutive row indices. -/
def dupErrs : Nat → Nat → List (Nat × List (String × String))
  | _, 0 => []
  | idx, n + 1 => (idx, [("name", "Name must be unique.")]) :: dupErrs (idx + 1) n

/-- Record equivalence in every field except id, created_at and updated_at. -/
def sameButMeta (a b : CompanyRow) : Prop :=
  b.name = a.name ∧ b.description = a.description ∧ b.logo_url = a.logo_url ∧
  b.parent_id = a.parent_id ∧ b.organization_id = a.organization_id ∧
  b.address = a.address ∧ b.email = a.email ∧
  b.phone_number = a.phone_number ∧ b.website = a.website ∧
  b.is_active = a.is_active ∧
  b.registration_number = a.registration_number ∧ b.tax_id = a.tax_id ∧
  b.country = a.country ∧ b.city = a.city ∧ b.postal_code = a.postal_code ∧
  b.employees_count = a.employees_count

/-- Frame property of a partial update: a field absent from the payload or
supplied as null keeps its prior stored value; a field supplied with a
non-null value takes exactly that value. -/
def PatchFrame (p : Payload) (c c' : CompanyRow) : Prop :=
  (p.name = .absent ∨ p.name = .null → c'.name = c.name) ∧
  (∀ v, p.name = .val v → c'.name = v) ∧
  (p.description = .absent ∨ p.description = .null → c'.description = c.description) ∧
  (∀ v, p.description = .val v → c'.description = some v) ∧
  (p.logo_url = .absent ∨ p.logo_url = .null → c'.logo_url = c.logo_url) ∧
  (∀ v, p.logo_url = .val v → c'.logo_url = some v) ∧
  (p.parent_id = .absent ∨ p.parent_id = .null → c'.parent_id = c.parent_id) ∧
  (∀ v, p.parent_id = .val v → c'.parent_id = some v) ∧
  (p.organization_id = .absent ∨ p.organization_id = .null →
    c'.organization_id = c.organization_id) ∧
  (∀ v, p.organization_id = .val v → c'.organization_id = some v) ∧
  (p.address = .absent ∨ p.address = .null → c'.address = c.address) ∧
  (∀ v, p.address = .val v → c'.address = some v) ∧
  (p.email = .absent ∨ p.email = .null → c'.email = c.email) ∧
  (∀ v, p.email = .val v → c'.email = some v) ∧
  (p.phone_number = .absent ∨ p.phone_number = .null →
    c'.phone_number = c.phone_number) ∧
  (∀ v, p.phone_number = .val v → c'.phone_number = some v) ∧
  (p.website = .absent ∨ p.website = .null → c'.website = c.website) ∧
  (∀ v, p.website = .val v → c'.website = some v) ∧
  (p.registration_number = .absent ∨ p.registration_number = .null →
    c'.registration_number = c.registration_number) ∧
  (∀ v, p.registration_number = .val v → c'.registration_number = some v) ∧
  (p.tax_id = .absent ∨ p.tax_id = .null → c'.tax_id = c.tax_id) ∧
  (∀ v, p.tax_id = .val v → c'.tax_id = some v) ∧
  (p.country = .absent ∨ p.country = .null → c'.country = c.country) ∧
  (∀ v, p.country = .val v → c'.country = some v) ∧
  (p.city = .absent ∨ p.city = .null → c'.city = c.city) ∧
  (∀ v, p.city = .val v → c'.city = some v) ∧
  (p.postal_code = .absent ∨ p.postal_code = .null →
    c'.postal_code = c.postal_code) ∧
  (∀ v, p.postal_code = .val v → c'.postal_code = some v) ∧
  (p.employees_count = .absent ∨ p.employees_count = .null →
    c'.employees_count = c.employees_count) ∧
  (∀ v, p.employees_count = .val v → c'.employees_count = some v) ∧
  (p.is_active = .absent ∨ p.is_active = .null → c'.is_active = c.is_active) ∧
  (∀ v, p.is_active = .val v → c'.is_active = v)

/-- Aggregate specification of one import request over `n` parsed rows: no
abort, every row either imported or reported (indices strictly increasing and
in range), the 200/207/400 status rule, and the store extended by exactly
the imported rows. -/
def ImportSpec (res : ImportOutcome × Store) (s : Store) (n : Nat) : Prop :=
  res.1.aborted = false ∧
  res.1.imported + res.1.errors.length = n ∧
  (res.1.errors = [] ↔ res.1.imported = n) ∧
  res.1.status =
    (if res.1.errors.isEmpty then 200
     else if res.1.imported = 0 then 400 else 207) ∧
  (∃ tail, res.2 = s ++ tail ∧ tail.length = res.1.imported) ∧
  (∀ e ∈ res.1.errors, e.1 < n) ∧
  res.1.errors.Pairwise (fun a b => a.1 < b.1)

theorem ne_empty_of_strLen_pos {v : String} (h : 0 < strLen v) : v ≠ "" := by
  intro he
  subst he
  exact absurd h (by decide)

theorem charDigit_digitChar {d : Nat} (h : d < 10) :
    charDigit (digitChar d) = some d := by
  interval_cases d <;> rfl

theorem digitChar_ne_dash {d : Nat} (h : d < 10) : digitChar d ≠ '-' := by
  interval_cases d <;> decide

theorem foldl_digits (ds : List Nat) (hds : ∀ d ∈ ds, d < 10) (a : Nat) :
    (ds.map digitChar).foldl
      (fun acc c =>
        match acc, charDigit c with
        | some a, some d => some (10 * a + d)
        | _, _ => none)
      (some a) = some (ds.foldl (fun x d => 10 * x + d) a) := by
  induction ds generalizing a with
  | nil => rfl
  | cons d t ih =>
    have hd : d < 10 := hds d (by simp)
    have ht : ∀ x ∈ t, x < 10 := fun x hx => hds x (by simp [hx])
    simp only [List.map_cons, List.foldl_cons, charDigit_digitChar hd]
    exact ih ht (10 * a + d)

theorem foldl_horner (l : List Nat) (a : Nat) :
    l.foldl (fun x d => 10 * x + d) a =
      a * 10 ^ l.length + Nat.ofDigits 10 l.reverse := by
  induction l generalizing a with
  | nil => simp [Nat.ofDigits]
  | cons d t ih =>
    simp only [List.foldl_cons, ih (10 * a + d), List.reverse_cons,
      Nat.ofDigits_append, List.length_cons, List.length_reverse,
      Nat.ofDigits_cons, Nat.ofDigits_nil]
    ring

theorem natStr_data {n : Nat} (h : n ≠ 0) :
    (natStr n).data = (Nat.digits 10 n).reverse.map digitChar := by
  simp [natStr, h]

theorem parseNatCell_natStr (n : Nat) : parseNatCell (natStr n) = some n := by
  by_cases h : n = 0
  · subst h; decide
  · have hne : Nat.digits 10 n ≠ [] := Nat.digits_ne_nil_iff_ne_zero.mpr h
    have hlt : ∀ d ∈ (Nat.digits 10 n).reverse, d < 10 := fun d hd =>
      Nat.digits_lt_base (by norm_num) (List.mem_reverse.mp hd)
    have hmap : ((Nat.digits 10 n).reverse.map digitChar).isEmpty = false := by
      simp [List.isEmpty_iff, hne]
    rw [parseNatCell, natStr_data h, hmap]
    simp only [Bool.false_eq_true, if_false, digitsVal, foldl_digits _ hlt 0,
      foldl_horner, List.reverse_reverse, Nat.ofDigits_digits, Nat.zero_mul,
      Nat.zero_add]

theorem parseIntCell_intStr {i : Int} (h : 0 ≤ i) :
    parseIntCell (intStr i) = some i := by
  have hni : ¬ i < 0 := not_lt.mpr h
  rw [intStr, if_neg hni]
  have hhead : ¬ (natStr i.toNat).data.head? = some '-' := by
    by_cases h0 : i.toNat = 0
    · rw [h0]; decide
    · have hne : (Nat.digits 10 i.toNat).reverse ≠ [] := by
        simp [Nat.digits_ne_nil_iff_ne_zero.mpr h0]
      obtain ⟨d, t, ht⟩ := List.exists_cons_of_ne_nil hne
      have hd : d < 10 := Nat.digits_lt_base (by norm_num)
        (List.mem_reverse.mp (ht ▸ List.mem_cons_self d t))
      rw [natStr_data h0, ht]
      simpa using digitChar_ne_dash hd
  rw [parseIntCell, if_neg hhead, parseNatCell_natStr]
  simp [Int.toNat_of_nonneg h]

theorem schemaLoad_unfold (s : Store) (part : Bool) (p : Payload) :
    schemaLoad s part p =
      fieldErrs s part p .name ++ (fieldErrs s part p .description ++
      (fieldErrs s part p .logo_url ++ (fieldErrs s part p .parent_id ++
      (fieldErrs s part p .address ++ (fieldErrs s part p .email ++
      (fieldErrs s part p .phone_number ++ (fieldErrs s part p .website ++
      (fieldErrs s part p .registration_number ++ (fieldErrs s part p .tax_id ++
      (fieldErrs s part p .country ++ (fieldErrs s part p .city ++
      (fieldErrs s part p .postal_code ++
       (fieldErrs s part p .employees_count ++ []))))))))))))) := rfl

theorem optFieldErrs_shape {α : Type} (k : String) (v : JVal α)
    (f : α → Option String) :
    optFieldErrs k v f = [] ∨ ∃ m, optFieldErrs k v f = [(k, m)] := by
  cases v with
  | absent => exact Or.inl rfl
  | null => exact Or.inl rfl
  | val a =>
    cases hf : f a with
    | none => exact Or.inl (by simp [optFieldErrs, hf])
    | some m => exact Or.inr ⟨m, by simp [optFieldErrs, hf]⟩

theorem fieldErrs_shape (s : Store) (part : Bool) (p : Payload) (f : SchemaField) :
    fieldErrs s part p f = [] ∨ ∃ m, fieldErrs s part p f = [(f.key, m)] := by
  cases f with
  | name =>
    cases hp : p.name with
    | absent =>
      by_cases hpart : part
      · exact Or.inl (by simp [fieldErrs, hp, hpart])
      · exact Or.inr ⟨"Missing data for required field.",
          by simp [fieldErrs, hp, hpart, SchemaField.key]⟩
    | null => exact Or.inr ⟨"Field may not be null.",
        by simp [fieldErrs, hp, SchemaField.key]⟩
    | val v =>
      cases hv : validate_name s v with
      | none => exact Or.inl (by simp [fieldErrs, hp, hv])
      | some m => exact Or.inr ⟨m, by simp [fieldErrs, hp, hv, SchemaField.key]⟩
  | description => exact optFieldErrs_shape _ _ _
  | logo_url => exact optFieldErrs_shape _ _ _
  | parent_id => exact optFieldErrs_shape _ _ _
  | address => exact optFieldErrs_shape _ _ _
  | email => exact optFieldErrs_shape _ _ _
  | phone_number => exact optFieldErrs_shape _ _ _
  | website => exact optFieldErrs_shape _ _ _
  | registration_number => exact optFieldErrs_shape _ _ _
  | tax_id => exact optFieldErrs_shape _ _ _
  | country => exact optFieldErrs_shape _ _ _
  | city => exact optFieldErrs_shape _ _ _
  | postal_code => exact optFieldErrs_shape _ _ _
  | employees_count => exact optFieldErrs_shape _ _ _

theorem lookup_isSome_of_exists {l : List (String × String)} {k : String}
    (h : ∃ e ∈ l, e.1 = k) : (l.lookup k).isSome = true := by
  induction l with
  | nil => simp at h
  | cons x t ih =>
    obtain ⟨e, he, hk⟩ := h
    rcases List.mem_cons.mp he with he | he
    · subst he
      simp [List.lookup, hk]
    · by_cases hx : k = x.1
      · simp [List.lookup, hx]
      · have hb : (k == x.1) = false := by simpa using hx
        simp only [List.lookup, hb]
        exact ih ⟨e, he, hk⟩

theorem get_by_name_isSome {s : Store} {n : String}
    (h : ∃ r ∈ s, r.name = n) : (Company.get_by_name s n).isSome = true := by
  by_contra hc
  have hnone : Company.get_by_name s n = none :=
    Option.not_isSome_iff_eq_none.mp (by simpa using hc)
  obtain ⟨r, hr, hrn⟩ := h
  have := List.find?_eq_none.mp hnone r hr
  simp [hrn] at this

theorem schemaLoad_name_collision (s : Store) (part : Bool) (p : Payload)
    (n : String) (hn : p.name = .val n) (hex : ∃ r ∈ s, r.name = n) :
    ∃ m rest, schemaLoad s part p = ("name", m) :: rest := by
  have hsome := get_by_name_isSome hex
  have hname : ∃ m, fieldErrs s part p .name = [("name", m)] := by
    by_cases h0 : n = ""
    · exact ⟨"Name cannot be empty.", by simp [fieldErrs, hn, validate_name, h0]⟩
    · exact ⟨"Name must be unique.",
        by simp [fieldErrs, hn, validate_name, h0, hsome]⟩
  obtain ⟨m, hm⟩ := hname
  exact ⟨m, _, by rw [schemaLoad_unfold, hm]; rfl⟩

/-- C1 counterexample: with a row named "Acme" already stored, a storage-layer
insert of a second row named "Acme" (fresh id, validation bypassed) does NOT
fail with IntegrityError — it succeeds and the resulting store holds two rows
with the same name, because the `name` column carries no unique constraint. -/
theorem create_duplicate_name_succeeds_cex :
    (Company.create [{ id := "a", name := "Acme" }] "b" 3
        { name := "Acme" }).toOption.map
      (fun x => x.2.map (fun r => r.name)) = some ["Acme", "Acme"] := by
  decide

/-- C1 (amended): the storage layer enforces only the primary key — an insert
fails with IntegrityError exactly when the new row's id equals an existing
row's id; a duplicate name with a fresh id is accepted, so name uniqueness
rests entirely on the Validation Engine's advisory check. -/
theorem create_integrity_iff_id_collision (s : Store) (newId : String)
    (now : Nat) (a : CreateArgs) :
    Company.create s newId now a = .error () ↔ ∃ r ∈ s, r.id = newId := by
  have hany : s.any (fun r => r.id == newId) = true ↔ ∃ r ∈ s, r.id = newId := by
    simp [List.any_eq_true]
  by_cases h : s.any (fun r => r.id == newId) = true
  · simp only [Company.create, h, if_true]
    exact ⟨fun _ => hany.mp h, fun _ => trivial⟩
  · simp only [Company.create, h, Bool.false_eq_true, if_false]
    constructor
    · intro hcontra; cases hcontra
    · intro hex; exact absurd (hany.mpr hex) h

/-- Witness for create_integrity_iff_id_collision at concrete inputs. -/
theorem create_integrity_iff_id_collision_wit :
    ¬ Company.create [{ id := "a", name := "Acme" }] "b" 3
        { name := "Acme" } = .error () :=
  fun h =>
    absurd ((create_integrity_iff_id_collision _ _ _ _).mp h) (by decide)

/-- C3 (code evaluation at the failing input): a PUT whose payload omits
`description` leaves the prior description in place instead of resetting it —
`Company.update` skips None arguments, so PUT has merge semantics, not the
replace-all semantics the specification states. -/
theorem put_retains_absent_description_cex :
    ((CompanyResource.put [{ id := "c1", name := "Old", description := some "keep" }]
        "c1" 7 { name := JVal.val "New" }).1.status = 200) ∧
    ((CompanyResource.put [{ id := "c1", name := "Old", description := some "keep" }]
        "c1" 7 { name := JVal.val "New" }).1.body.map
      (fun c => c.description) = some (some "keep")) ∧
    ((CompanyResource.put [{ id := "c1", name := "Old", description := some "keep" }]
        "c1" 7 { name := JVal.val "New" }).2.map
      (fun c => c.description) = [some "keep"]) := by
  decide

/-- C2: a create request whose payload name exactly equals the name of a row
already in the store returns a 400 validation response whose error mapping
contains the key name, and no row is inserted. -/
theorem post_duplicate_name_rejected (s : Store) (newId : String) (now : Nat)
    (p : Payload) (n : String) (hn : p.name = .val n)
    (hex : ∃ r ∈ s, r.name = n) :
    (CompanyListResource.post s newId now p).1.status = 400 ∧
    ((CompanyListResource.post s newId now p).1.errors.lookup "name").isSome = true ∧
    (CompanyListResource.post s newId now p).2 = s := by
  obtain ⟨m, rest, hload⟩ := schemaLoad_name_collision s false p n hn hex
  have hcond : ¬ ((schemaLoad s false p).isEmpty = true) := by
    rw [hload]; simp
  have hpost : CompanyListResource.post s newId now p =
      ({ status := 400, errors := schemaLoad s false p }, s) := by
    simp only [CompanyListResource.post, if_neg hcond]
  rw [hpost]
  refine ⟨rfl, ?_, rfl⟩
  rw [hload]
  simp [List.lookup]

/-- Witness for post_duplicate_name_rejected at a concrete store and payload. -/
theorem post_duplicate_name_rejected_wit :
    (CompanyListResource.post [{ id := "a", name := "Acme" }] "b" 1
        { name := JVal.val "Acme" }).1.status = 400 ∧
    ((CompanyListResource.post [{ id := "a", name := "Acme" }] "b" 1
        { name := JVal.val "Acme" }).1.errors.lookup "name").isSome = true ∧
    (CompanyListResource.post [{ id := "a", name := "Acme" }] "b" 1
        { name := JVal.val "Acme" }).2 = [{ id := "a", name := "Acme" }] :=
  post_duplicate_name_rejected _ "b" 1 _ "Acme" rfl (by decide)

/-- C10: the uniqueness validator does not exempt the record being updated —
a PUT or PATCH whose payload re-submits any name present in the store (the
target's own current name included) is rejected with a 400 validation error
keyed by name, and the store is left unmodified. -/
theorem update_resubmitted_name_rejected (s : Store) (cid : String) (now : Nat)
    (p : Payload) (n : String) (c : CompanyRow)
    (hc : Company.get_by_id s cid = some c)
    (hn : p.name = .val n) (hex : ∃ r ∈ s, r.name = n) :
    ((CompanyResource.put s cid now p).1.status = 400 ∧
     ((CompanyResource.put s cid now p).1.errors.lookup "name").isSome = true ∧
     (CompanyResource.put s cid now p).2 = s) ∧
    ((CompanyResource.patch s cid now p).1.status = 400 ∧
     ((CompanyResource.patch s cid now p).1.errors.lookup "name").isSome = true ∧
     (CompanyResource.patch s cid now p).2 = s) := by
  obtain ⟨m₁, rest₁, hload₁⟩ := schemaLoad_name_collision s false p n hn hex
  obtain ⟨m₂, rest₂, hload₂⟩ := schemaLoad_name_collision s true p n hn hex
  have hcond₁ : ¬ ((schemaLoad s false p).isEmpty = true) := by
    rw [hload₁]; simp
  have hcond₂ : ¬ ((schemaLoad s true p).isEmpty = true) := by
    rw [hload₂]; simp
  have hput : CompanyResource.put s cid now p =
      ({ status := 400, errors := schemaLoad s false p }, s) := by
    simp only [CompanyResource.put, if_neg hcond₁]
  have hpatch : CompanyResource.patch s cid now p =
      ({ status := 400, errors := schemaLoad s true p }, s) := by
    simp only [CompanyResource.patch, if_neg hcond₂]
  rw [hput, hpatch]
  refine ⟨⟨rfl, ?_, rfl⟩, ⟨rfl, ?_, rfl⟩⟩
  · rw [hload₁]; simp [List.lookup]
  · rw [hload₂]; simp [List.lookup]

/-- Witness for update_resubmitted_name_rejected: a full update that keeps the
name unchanged fails on both PUT and PATCH. -/
theorem update_resubmitted_name_rejected_wit :
    ((CompanyResource.put [{ id := "a", name := "Acme" }] "a" 2
        { name := JVal.val "Acme" }).1.status = 400 ∧
     ((CompanyResource.put [{ id := "a", name := "Acme" }] "a" 2
        { name := JVal.val "Acme" }).1.errors.lookup "name").isSome = true ∧
     (CompanyResource.put [{ id := "a", name := "Acme" }] "a" 2
        { name := JVal.val "Acme" }).2 = [{ id := "a", name := "Acme" }]) ∧
    ((CompanyResource.patch [{ id := "a", name := "Acme" }] "a" 2
        { name := JVal.val "Acme" }).1.status = 400 ∧
     ((CompanyResource.patch [{ id := "a", name := "Acme" }] "a" 2
        { name := JVal.val "Acme" }).1.errors.lookup "name").isSome = true ∧
     (CompanyResource.patch [{ id := "a", name := "Acme" }] "a" 2
        { name := JVal.val "Acme" }).2 = [{ id := "a", name := "Acme" }]) :=
  update_resubmitted_name_rejected _ "a" 2 _ "Acme" _ rfl rfl (by decide)

/-- C9: a successful POST persists parent_id as null, organization_id as null
and is_active as true regardless of the payload, stores employees_count 0 when
the field is absent, and appends exactly one row to the store. -/
theorem post_ignores_hierarchy_fields (s : Store) (newId : String) (now : Nat)
    (p : Payload) (h : (CompanyListResource.post s newId now p).1.status = 201) :
    ∃ row, (CompanyListResource.post s newId now p).1.body = some row ∧
      row.parent_id = none ∧ row.organization_id = none ∧
      row.is_active = true ∧
      (p.employees_count = .absent → row.employees_count = some 0) ∧
      (CompanyListResource.post s newId now p).2 = s ++ [row] := by
  by_cases hcond : ((schemaLoad s false p).isEmpty = true)
  case neg =>
    simp only [CompanyListResource.post, if_neg hcond] at h
    exact absurd h (by decide)
  case pos =>
    cases hp : p.name with
    | absent =>
      simp only [CompanyListResource.post, if_pos hcond, hp] at h
      exact absurd h (by decide)
    | null =>
      simp only [CompanyListResource.post, if_pos hcond, hp] at h
      exact absurd h (by decide)
    | val nm =>
      by_cases hid : (s.any (fun r => r.id == newId) = true)
      · simp only [CompanyListResource.post, if_pos hcond, hp, Company.create,
          if_pos hid] at h
        exact absurd h (by decide)
      · have hpost : CompanyListResource.post s newId now p =
            ({ status := 201, body := some
                { id := newId, name := nm, description := p.description.get,
                  logo_url := p.logo_url.get, parent_id := none,
                  organization_id := none, address := p.address.get,
                  email := p.email.get, phone_number := p.phone_number.get,
                  website := p.website.get, created_at := some now,
                  updated_at := some now, is_active := true,
                  registration_number := p.registration_number.get,
                  tax_id := p.tax_id.get, country := p.country.get,
                  city := p.city.get, postal_code := p.postal_code.get,
                  employees_count := p.employees_count.getDZero } },
             s ++ [{ id := newId, name := nm,
                     description := p.description.get,
                     logo_url := p.logo_url.get, parent_id := none,
                     organization_id := none, address := p.address.get,
                     email := p.email.get, phone_number := p.phone_number.get,
                     website := p.website.get, created_at := some now,
                     updated_at := some now, is_active := true,
                     registration_number := p.registration_number.get,
                     tax_id := p.tax_id.get, country := p.country.get,
                     city := p.city.get, postal_code := p.postal_code.get,
                     employees_count := p.employees_count.getDZero }]) := by
          simp only [CompanyListResource.post, if_pos hcond, hp, Company.create,
            if_neg hid]
        rw [hpost]
        refine ⟨_, rfl, rfl, rfl, rfl, ?_, rfl⟩
        intro habs
        simp [habs, JVal.getDZero]

/-- Witness for post_ignores_hierarchy_fields: a payload supplying parent_id
and organization_id values and is_active false still creates the row with the
defaults. -/
theorem post_ignores_hierarchy_fields_wit :
    (CompanyListResource.post [{ id := "a", name := "Acme" }] "b" 4
        { name := JVal.val "Beta", parent_id := JVal.val "a",
          organization_id := JVal.val "org9",
          is_active := JVal.val false }).1.status = 201 ∧
    ∃ row, (CompanyListResource.post [{ id := "a", name := "Acme" }] "b" 4
        { name := JVal.val "Beta", parent_id := JVal.val "a",
          organization_id := JVal.val "org9",
          is_active := JVal.val false }).1.body = some row ∧
      row.parent_id = none ∧ row.organization_id = none ∧
      row.is_active = true ∧
      (({ name := JVal.val "Beta", parent_id := JVal.val "a",
          organization_id := JVal.val "org9",
          is_active := JVal.val false } : Payload).employees_count = .absent →
        row.employees_count = some 0) ∧
      (CompanyListResource.post [{ id := "a", name := "Acme" }] "b" 4
        { name := JVal.val "Beta", parent_id := JVal.val "a",
          organization_id := JVal.val "org9",
          is_active := JVal.val false }).2 =
        [{ id := "a", name := "Acme" }] ++ [row] :=
  ⟨by decide, post_ignores_hierarchy_fields _ "b" 4 _ (by decide)⟩

/-- C7: for every string field with declared maximum length L, a value of
length exactly L passes the field's check and a value of length L+1 is
rejected with that field's specific error message, all other constraints of
the field being satisfied (non-collision for name, URL scheme for
logo_url/website, an @ for email). -/
theorem field_length_boundaries :
    (∀ (s : Store) (v : String), strLen v = 100 → Company.get_by_name s v = none →
      validate_name s v = none) ∧
    (∀ (s : Store) (v : String), strLen v = 101 → Company.get_by_name s v = none →
      validate_name s v = some "Name cannot exceed 100 characters.") ∧
    (∀ v : String, strLen v = 500 → validate_description v = none) ∧
    (∀ v : String, strLen v = 501 →
      validate_description v = some "Description cannot exceed 500 characters.") ∧
    (∀ v : String, startsWithUrlScheme v = true → strLen v = 255 →
      validate_logo_url v = none) ∧
    (∀ v : String, startsWithUrlScheme v = true → strLen v = 256 →
      validate_logo_url v = some "Logo URL cannot exceed 255 characters.") ∧
    (∀ v : String, strLen v = 255 → validate_address v = none) ∧
    (∀ v : String, strLen v = 256 →
      validate_address v = some "Address cannot exceed 255 characters.") ∧
    (∀ v : String, strContainsAt v = true → strLen v = 100 →
      validate_email v = none) ∧
    (∀ v : String, strLen v = 101 →
      validate_email v = some "Email cannot exceed 100 characters.") ∧
    (∀ v : String, strLen v = 20 → validate_phone_number v = none) ∧
    (∀ v : String, strLen v = 21 →
      validate_phone_number v = some "Phone number cannot exceed 20 characters.") ∧
    (∀ v : String, startsWithUrlScheme v = true → strLen v = 100 →
      validate_website v = none) ∧
    (∀ v : String, startsWithUrlScheme v = true → strLen v = 101 →
      validate_website v = some "Website cannot exceed 100 characters.") ∧
    (∀ v : String, strLen v = 100 → validate_registration_number v = none) ∧
    (∀ v : String, strLen v = 101 →
      validate_registration_number v =
        some "Registration number cannot exceed 100 characters.") ∧
    (∀ v : String, strLen v = 50 → validate_tax_id v = none) ∧
    (∀ v : String, strLen v = 51 →
      validate_tax_id v = some "Tax ID cannot exceed 50 characters.") ∧
    (∀ v : String, strLen v = 100 → validate_country v = none) ∧
    (∀ v : String, strLen v = 101 →
      validate_country v = some "Country cannot exceed 100 characters.") ∧
    (∀ v : String, strLen v = 100 → validate_city v = none) ∧
    (∀ v : String, strLen v = 101 →
      validate_city v = some "City cannot exceed 100 characters.") ∧
    (∀ v : String, strLen v = 20 → validate_postal_code v = none) ∧
    (∀ v : String, strLen v = 21 →
      validate_postal_code v = some "Postal code cannot exceed 20 characters.") := by
  refine ⟨?_, ?_, ?_, ?_, ?_, ?_, ?_, ?_, ?_, ?_, ?_, ?_, ?_, ?_, ?_, ?_, ?_,
    ?_, ?_, ?_, ?_, ?_, ?_, ?_⟩
  · intro s v h hget
    have hne : v ≠ "" := ne_empty_of_strLen_pos (by omega)
    norm_num [validate_name, hne, hget, h]
  · intro s v h hget
    have hne : v ≠ "" := ne_empty_of_strLen_pos (by omega)
    norm_num [validate_name, hne, hget, h]
  · intro v h; norm_num [validate_description, h]
  · intro v h
    have hne : v ≠ "" := ne_empty_of_strLen_pos (by omega)
    norm_num [validate_description, h, hne]
  · intro v hpre h; norm_num [validate_logo_url, hpre, h]
  · intro v hpre h
    have hne : v ≠ "" := ne_empty_of_strLen_pos (by omega)
    norm_num [validate_logo_url, hpre, h, hne]
  · intro v h; norm_num [validate_address, h]
  · intro v h
    have hne : v ≠ "" := ne_empty_of_strLen_pos (by omega)
    norm_num [validate_address, h, hne]
  · intro v hat h; norm_num [validate_email, hat, h]
  · intro v h
    have hne : v ≠ "" := ne_empty_of_strLen_pos (by omega)
    norm_num [validate_email, h, hne]
  · intro v h; norm_num [validate_phone_number, h]
  · intro v h
    have hne : v ≠ "" := ne_empty_of_strLen_pos (by omega)
    norm_num [validate_phone_number, h, hne]
  · intro v hpre h; norm_num [validate_website, hpre, h]
  · intro v hpre h
    have hne : v ≠ "" := ne_empty_of_strLen_pos (by omega)
    norm_num [validate_website, hpre, h, hne]
  · intro v h; norm_num [validate_registration_number, h]
  · intro v h
    have hne : v ≠ "" := ne_empty_of_strLen_pos (by omega)
    norm_num [validate_registration_number, h, hne]
  · intro v h; norm_num [validate_tax_id, h]
  · intro v h
    have hne : v ≠ "" := ne_empty_of_strLen_pos (by omega)
    norm_num [validate_tax_id, h, hne]
  · intro v h; norm_num [validate_country, h]
  · intro v h
    have hne : v ≠ "" := ne_empty_of_strLen_pos (by omega)
    norm_num [validate_country, h, hne]
  · intro v h; norm_num [validate_city, h]
  · intro v h
    have hne : v ≠ "" := ne_empty_of_strLen_pos (by omega)
    norm_num [validate_city, h, hne]
  · intro v h; norm_num [validate_postal_code, h]
  · intro v h
    have hne : v ≠ "" := ne_empty_of_strLen_pos (by omega)
    norm_num [validate_postal_code, h, hne]

set_option maxRecDepth 8000 in
/-- Witness for field_length_boundaries: each conjunct instantiated at a
concrete string of the boundary length. -/
theorem field_length_boundaries_wit :
    validate_name [] ⟨List.replicate 100 'a'⟩ = none ∧
    validate_name [] ⟨List.replicate 101 'a'⟩ =
      some "Name cannot exceed 100 characters." ∧
    validate_description ⟨List.replicate 500 'a'⟩ = none ∧
    validate_description ⟨List.replicate 501 'a'⟩ =
      some "Description cannot exceed 500 characters." ∧
    validate_logo_url ⟨"http://".data ++ List.replicate 248 'a'⟩ = none ∧
    validate_logo_url ⟨"http://".data ++ List.replicate 249 'a'⟩ =
      some "Logo URL cannot exceed 255 characters." ∧
    validate_address ⟨List.replicate 255 'a'⟩ = none ∧
    validate_address ⟨List.replicate 256 'a'⟩ =
      some "Address cannot exceed 255 characters." ∧
    validate_email ⟨'@' :: List.replicate 99 'a'⟩ = none ∧
    validate_email ⟨List.replicate 101 'a'⟩ =
      some "Email cannot exceed 100 characters." ∧
    validate_phone_number ⟨List.replicate 20 'a'⟩ = none ∧
    validate_phone_number ⟨List.replicate 21 'a'⟩ =
      some "Phone number cannot exceed 20 characters." ∧
    validate_website ⟨"http://".data ++ List.replicate 93 'a'⟩ = none ∧
    validate_website ⟨"http://".data ++ List.replicate 94 'a'⟩ =
      some "Website cannot exceed 100 characters." ∧
    validate_registration_number ⟨List.replicate 100 'a'⟩ = none ∧
    validate_registration_number ⟨List.replicate 101 'a'⟩ =
      some "Registration number cannot exceed 100 characters." ∧
    validate_tax_id ⟨List.replicate 50 'a'⟩ = none ∧
    validate_tax_id ⟨List.replicate 51 'a'⟩ =
      some "Tax ID cannot exceed 50 characters." ∧
    validate_country ⟨List.replicate 100 'a'⟩ = none ∧
    validate_country ⟨List.replicate 101 'a'⟩ =
      some "Country cannot exceed 100 characters." ∧
    validate_city ⟨List.replicate 100 'a'⟩ = none ∧
    validate_city ⟨List.replicate 101 'a'⟩ =
      some "City cannot exceed 100 characters." ∧
    validate_postal_code ⟨List.replicate 20 'a'⟩ = none ∧
    validate_postal_code ⟨List.replicate 21 'a'⟩ =
      some "Postal code cannot exceed 20 characters." := by
  obtain ⟨h1, h2, h3, h4, h5, h6, h7, h8, h9, h10, h11, h12, h13, h14, h15,
    h16, h17, h18, h19, h20, h21, h22, h23, h24⟩ := field_length_boundaries
  exact ⟨h1 [] _ (by decide) rfl, h2 [] _ (by decide) rfl, h3 _ (by decide),
    h4 _ (by decide), h5 _ (by decide) (by decide), h6 _ (by decide) (by decide),
    h7 _ (by decide), h8 _ (by decide), h9 _ (by decide) (by decide),
    h10 _ (by decide), h11 _ (by decide), h12 _ (by decide),
    h13 _ (by decide) (by decide), h14 _ (by decide) (by decide),
    h15 _ (by decide), h16 _ (by decide), h17 _ (by decide), h18 _ (by decide),
    h19 _ (by decide), h20 _ (by decide), h21 _ (by decide), h22 _ (by decide),
    h23 _ (by decide), h24 _ (by decide)⟩

theorem fieldErrs_subset_schemaLoad (s : Store) (part : Bool) (p : Payload)
    (f : SchemaField) : ∀ e ∈ fieldErrs s part p f, e ∈ schemaLoad s part p := by
  intro e he
  rw [schemaLoad_unfold]
  cases f <;> simp only [List.mem_append, List.not_mem_nil, or_false] <;> tauto

theorem schemaLoad_key_of_errs (s : Store) (part : Bool) (p : Payload)
    (f : SchemaField) (hf : fieldErrs s part p f ≠ []) :
    ∃ e ∈ schemaLoad s part p, e.1 = f.key := by
  rcases fieldErrs_shape s part p f with h | ⟨m, h⟩
  · exact absurd h hf
  · exact ⟨(f.key, m),
      fieldErrs_subset_schemaLoad s part p f _ (by rw [h]; simp), rfl⟩

/-- C8: validation evaluates every supplied field independently and collects
all violations — when two distinct fields each violate their rule, the 400
response's error mapping contains an entry for each of them, and the store is
unchanged (no partial application). -/
theorem validation_collects_all_errors (s : Store) (newId : String) (now : Nat)
    (p : Payload) (f g : SchemaField) (hfg : f ≠ g)
    (hf : fieldErrs s false p f ≠ []) (hg : fieldErrs s false p g ≠ []) :
    (CompanyListResource.post s newId now p).1.status = 400 ∧
    ((CompanyListResource.post s newId now p).1.errors.lookup f.key).isSome = true ∧
    ((CompanyListResource.post s newId now p).1.errors.lookup g.key).isSome = true ∧
    (CompanyListResource.post s newId now p).2 = s := by
  obtain ⟨ef, hef, hkf⟩ := schemaLoad_key_of_errs s false p f hf
  obtain ⟨eg, heg, hkg⟩ := schemaLoad_key_of_errs s false p g hg
  have hnil : schemaLoad s false p ≠ [] := List.ne_nil_of_mem hef
  have hcond : ¬ ((schemaLoad s false p).isEmpty = true) := by
    simp [List.isEmpty_iff, hnil]
  have hpost : CompanyListResource.post s newId now p =
      ({ status := 400, errors := schemaLoad s false p }, s) := by
    simp only [CompanyListResource.post, if_neg hcond]
  rw [hpost]
  exact ⟨rfl, lookup_isSome_of_exists ⟨ef, hef, hkf⟩,
    lookup_isSome_of_exists ⟨eg, heg, hkg⟩, rfl⟩

/-- Witness for validation_collects_all_errors: an empty name and an invalid
email produce one response carrying both field errors. -/
theorem validation_collects_all_errors_wit :
    (CompanyListResource.post [] "w" 0
        { name := JVal.val "", email := JVal.val "bad" }).1.status = 400 ∧
    ((CompanyListResource.post [] "w" 0
        { name := JVal.val "", email := JVal.val "bad" }).1.errors.lookup
      "name").isSome = true ∧
    ((CompanyListResource.post [] "w" 0
        { name := JVal.val "", email := JVal.val "bad" }).1.errors.lookup
      "email").isSome = true ∧
    (CompanyListResource.post [] "w" 0
        { name := JVal.val "", email := JVal.val "bad" }).2 = [] :=
  validation_collects_all_errors [] "w" 0 _ .name .email (by decide)
    (by decide) (by decide)

/-- C4: a successful PATCH touches only the fields supplied with non-null
values — absent fields and fields supplied as null retain their prior stored
values, supplied non-null fields take exactly the supplied value, id and
created_at are untouched, and only the target row of the store changes. -/
theorem patch_touches_only_supplied_fields (s : Store) (cid : String)
    (now : Nat) (p : Payload)
    (h200 : (CompanyResource.patch s cid now p).1.status = 200) :
    ∃ c c', Company.get_by_id s cid = some c ∧
      (CompanyResource.patch s cid now p).1.body = some c' ∧
      (CompanyResource.patch s cid now p).2 =
        s.map (fun r => if r.id == cid then c' else r) ∧
      c'.id = c.id ∧ c'.created_at = c.created_at ∧
      c'.updated_at = some now ∧ PatchFrame p c c' := by
  by_cases hcond : ((schemaLoad s true p).isEmpty = true)
  case neg =>
    simp only [CompanyResource.patch, if_neg hcond] at h200
    exact absurd h200 (by decide)
  case pos =>
    cases hc : Company.get_by_id s cid with
    | none =>
      simp only [CompanyResource.patch, if_pos hcond, hc] at h200
      exact absurd h200 (by decide)
    | some c =>
      have hpatch : CompanyResource.patch s cid now p =
          ({ status := 200, body := some (Company.update c (patchArgs p) now) },
           s.map (fun r =>
             if r.id == cid then Company.update c (patchArgs p) now else r)) := by
        simp only [CompanyResource.patch, if_pos hcond, hc]
      refine ⟨c, Company.update c (patchArgs p) now, rfl, ?_, ?_, rfl, rfl, rfl, ?_⟩
      · rw [hpatch]
      · rw [hpatch]
      · refine ⟨?_, ?_, ?_, ?_, ?_, ?_, ?_, ?_, ?_, ?_, ?_, ?_, ?_, ?_, ?_, ?_,
          ?_, ?_, ?_, ?_, ?_, ?_, ?_, ?_, ?_, ?_, ?_, ?_, ?_, ?_, ?_, ?_⟩ <;>
          first
          | (rintro (h | h) <;>
              simp only [Company.update, patchArgs, applyOpt, h, JVal.get,
                Option.getD])
          | (intro v hv;
              simp only [Company.update, patchArgs, applyOpt, hv, JVal.get,
                Option.getD])

/-- Witness for patch_touches_only_supplied_fields: patching one field of a
concrete record, with another field supplied as null. -/
theorem patch_touches_only_supplied_fields_wit :
    (CompanyResource.patch [{ id := "a", name := "Acme", description := some "keep", employees_count := some 5 }] "a" 9
      { description := JVal.val "new", email := JVal.null }).1.status = 200 ∧
    ∃ c c', Company.get_by_id [{ id := "a", name := "Acme", description := some "keep", employees_count := some 5 }] "a" = some c ∧
      (CompanyResource.patch [{ id := "a", name := "Acme", description := some "keep", employees_count := some 5 }] "a" 9
        { description := JVal.val "new", email := JVal.null }).1.body = some c' ∧
      (CompanyResource.patch [{ id := "a", name := "Acme", description := some "keep", employees_count := some 5 }] "a" 9
        { description := JVal.val "new", email := JVal.null }).2 =
        [{ id := "a", name := "Acme", description := some "keep", employees_count := some 5 }].map
          (fun r => if r.id == "a" then c' else r) ∧
      c'.id = c.id ∧ c'.created_at = c.created_at ∧
      c'.updated_at = some 9 ∧
      PatchFrame { description := JVal.val "new", email := JVal.null } c c' :=
  ⟨by decide, patch_touches_only_supplied_fields _ "a" 9 _ (by decide)⟩

theorem avoids_of_succ {ids : Nat → String} {s : Store} {lo n : Nat}
    (h : Avoids ids s lo (n + 1)) : Avoids ids s lo n :=
  ⟨fun i hi j hj hij => h.1 i (by omega) j (by omega) hij,
   fun i hi r hr => h.2 i (by omega) r hr⟩

theorem avoids_head {ids : Nat → String} {s : Store} {lo n : Nat}
    (h : Avoids ids s lo (n + 1)) : ∀ r ∈ s, r.id ≠ ids lo := by
  intro r hr
  have := h.2 0 (by omega) r hr
  simpa using this

theorem avoids_step {ids : Nat → String} {s : Store} {lo n : Nat}
    {row : CompanyRow} (h : Avoids ids s lo (n + 1)) (hrow : row.id = ids lo) :
    Avoids ids (s ++ [row]) (lo + 1) n := by
  obtain ⟨h1, h2⟩ := h
  constructor
  · intro i hi j hj hij
    have e1 : lo + 1 + i = lo + (i + 1) := by omega
    have e2 : lo + 1 + j = lo + (j + 1) := by omega
    rw [e1, e2]
    exact h1 (i + 1) (by omega) (j + 1) (by omega) (by omega)
  · intro i hi r hr
    have e1 : lo + 1 + i = lo + (i + 1) := by omega
    rcases List.mem_append.mp hr with hr | hr
    · rw [e1]
      exact h2 (i + 1) (by omega) r hr
    · have hr' : r = row := by simpa using hr
      subst hr'
      rw [hrow, e1]
      have := h1 0 (by omega) (i + 1) (by omega) (by omega)
      simpa using this

theorem create_ok_of_fresh {s : Store} {newId : String} (now : Nat)
    (a : CreateArgs) (h : ∀ r ∈ s, r.id ≠ newId) :
    ∃ row, Company.create s newId now a = .ok (row, s ++ [row]) ∧
      row.id = newId := by
  have hany : s.any (fun r => r.id == newId) = false := by
    rw [List.any_eq_false]
    intro r hr
    simpa using h r hr
  simp only [Company.create, hany, Bool.false_eq_true, if_false]
  exact ⟨_, rfl, rfl⟩

theorem importLoop_no_abort {α : Type}
    (load : Store → α → Except (List (String × String)) Payload)
    (ids : Nat → String) (now : Nat) :
    ∀ (rows : List α) (s : Store) (count idx : Nat)
      (errs : List (Nat × List (String × String))),
      Avoids ids s count rows.length →
      ∃ (k : Nat) (newErrs : List (Nat × List (String × String)))
        (tail : Store),
        importLoop load ids now ⟨count, errs, s, false⟩ idx rows =
          ⟨count + k, errs ++ newErrs, s ++ tail, false⟩ ∧
        k + newErrs.length = rows.length ∧ tail.length = k ∧
        (∀ e ∈ newErrs, idx ≤ e.1 ∧ e.1 < idx + rows.length) ∧
        newErrs.Pairwise (fun a b => a.1 < b.1) := by
  intro rows
  induction rows with
  | nil =>
    intro s count idx errs _h
    exact ⟨0, [], [], by simp [importLoop], by simp, rfl, by simp,
      List.Pairwise.nil⟩
  | cons r rest ih =>
    intro s count idx errs hav
    cases hload : load s r with
    | error e =>
      obtain ⟨k, ne, tl, hkeq, hsum, htl, hbnd, hpw⟩ :=
        ih s count (idx + 1) (errs ++ [(idx, e)]) (avoids_of_succ hav)
      refine ⟨k, (idx, e) :: ne, tl, ?_, ?_, htl, ?_, ?_⟩
      · simp only [importLoop, hload]
        rw [hkeq]
        simp
      · simp only [List.length_cons, List.length_cons] at hsum ⊢
        omega
      · intro x hx
        rcases List.mem_cons.mp hx with hx | hx
        · subst hx
          constructor <;> simp
        · have := hbnd x hx
          simp only [List.length_cons]
          omega
      · exact List.pairwise_cons.mpr
          ⟨fun b hb => by have := (hbnd b hb).1; omega, hpw⟩
    | ok p =>
      obtain ⟨row, hcr, hrid⟩ :=
        create_ok_of_fresh now (createArgsOfPayload p) (avoids_head hav)
      have hav' : Avoids ids (s ++ [row]) (count + 1) rest.length :=
        avoids_step hav hrid
      obtain ⟨k, ne, tl, hkeq, hsum, htl, hbnd, hpw⟩ :=
        ih (s ++ [row]) (count + 1) (idx + 1) errs hav'
      refine ⟨k + 1, ne, row :: tl, ?_, ?_, ?_, ?_, hpw⟩
      · simp only [importLoop, hload, hcr]
        rw [hkeq]
        have e1 : count + 1 + k = count + (k + 1) := by omega
        have e2 : s ++ [row] ++ tl = s ++ row :: tl := by simp
        rw [e1, e2]
      · simp only [List.length_cons]
        omega
      · simp [htl]
      · intro x hx
        have := hbnd x hx
        simp only [List.length_cons]
        omega

theorem importOutcome_spec {α : Type}
    (load : Store → α → Except (List (String × String)) Payload)
    (ids : Nat → String) (now : Nat) (s : Store) (rows : List α)
    (hav : Avoids ids s 0 rows.length) :
    ImportSpec (importOutcomeOf (importLoop load ids now ⟨0, [], s, false⟩ 0 rows))
      s rows.length := by
  obtain ⟨k, ne, tl, hkeq, hsum, htl, hbnd, hpw⟩ :=
    importLoop_no_abort load ids now rows s 0 0 [] hav
  rw [hkeq]
  by_cases hne : ne = []
  · subst hne
    have hk : k = rows.length := by simpa using hsum
    have hout : importOutcomeOf ⟨0 + k, [] ++ [], s ++ tl, false⟩ =
        ({ status := 200, imported := 0 + k, errors := [] }, s ++ tl) := rfl
    rw [hout]
    simp only [ImportSpec]
    refine ⟨trivial, ?_, ?_, by simp, ⟨tl, rfl, ?_⟩, ?_, List.Pairwise.nil⟩
    · simp [hk]
    · simp [hk]
    · simp [htl]
    · simp
  · have hioe : (([] ++ ne : List (Nat × List (String × String)))).isEmpty = false := by
      simp [List.isEmpty_iff, hne]
    have hout : importOutcomeOf ⟨0 + k, [] ++ ne, s ++ tl, false⟩ =
        ({ status := if 0 + k = 0 then 400 else 207, imported := 0 + k,
           errors := [] ++ ne }, s ++ tl) := by
      simp only [importOutcomeOf, hioe]
      rfl
    rw [hout]
    simp only [ImportSpec]
    refine ⟨trivial, ?_, ?_, ?_, ⟨tl, rfl, ?_⟩, ?_, ?_⟩
    · simp; omega
    · simp only [List.nil_append]
      constructor
      · intro hc; exact absurd hc hne
      · intro hc
        have hlen : ne.length = 0 := by simp at hc; omega
        exact absurd (List.length_eq_zero.mp hlen) hne
    · simp [hioe, hne]
    · simp [htl]
    · intro e he
      have := hbnd e (by simpa using he)
      omega
    · simpa using hpw

/-- C6: both import endpoints process every parsed row — a row's validation
failure never aborts the batch — record one error entry per failing row with
strictly increasing in-range indices, persist exactly the validating rows, and
return 200 when every row succeeded, 400 when every row failed, and 207
otherwise. -/
theorem import_processes_every_row (s : Store) (ids : Nat → String) (now : Nat) :
    (∀ items : List Payload, Avoids ids s 0 items.length →
      ImportSpec (ImportJSONResource.post s ids now items) s items.length) ∧
    (∀ rows : List CsvRow, Avoids ids s 0 rows.length →
      ImportSpec (ImportCSVResource.post s ids now rows) s rows.length) :=
  ⟨fun items hav => importOutcome_spec loadJson ids now s items hav,
   fun rows hav => importOutcome_spec loadCsv ids now s rows hav⟩

/-- Witness for import_processes_every_row: a two-row JSON batch with one
invalid row (partial success) and a one-row CSV batch. -/
theorem import_processes_every_row_wit :
    ImportSpec (ImportJSONResource.post []
        (fun k => if k = 0 then "u0" else "u1") 3
        [{ name := JVal.val "A" }, { name := JVal.val "" }]) [] 2 ∧
    ImportSpec (ImportCSVResource.post []
        (fun k => if k = 0 then "u0" else "u1") 3
        [exportRow { id := "x", name := "B" }]) [] 1 :=
  ⟨(import_processes_every_row [] (fun k => if k = 0 then "u0" else "u1") 3).1
      [{ name := JVal.val "A" }, { name := JVal.val "" }] (by decide),
   (import_processes_every_row [] (fun k => if k = 0 then "u0" else "u1") 3).2
      [exportRow { id := "x", name := "B" }] (by decide)⟩

theorem natStr_ne_empty (n : Nat) : natStr n ≠ "" := by
  by_cases h : n = 0
  · subst h; decide
  · intro he
    have hd := congrArg String.data he
    rw [natStr_data h] at hd
    have hmap : (Nat.digits 10 n).reverse.map digitChar = [] := hd
    have hrev : (Nat.digits 10 n).reverse = [] := by simpa using hmap
    have : Nat.digits 10 n = [] := by simpa using hrev
    exact Nat.digits_ne_nil_iff_ne_zero.mpr h this

theorem intStr_ne_empty (i : Int) : intStr i ≠ "" := by
  rw [intStr]
  by_cases h : i < 0
  · rw [if_pos h]
    intro he
    have hd := congrArg String.data he
    simpa using hd
  · rw [if_neg h]
    exact natStr_ne_empty _

theorem parseBoolCell_true : parseBoolCell "True" = some true := by decide

theorem csvDeserErrs_exportRow (c : CompanyRow) (hok : RowOk c) :
    csvDeserErrs (exportRow c) = [] := by
  obtain ⟨_, _, _, _, hact, _, _, _, _, _, _, _, _, _, _, _, hemp⟩ := hok
  have h1 : (exportRow c).is_active = "True" := by
    simp [exportRow, hact, boolCell]
  have h2 : (exportRow c).employees_count = intCell c.employees_count := rfl
  rw [csvDeserErrs, h1, h2, parseBoolCell_true]
  cases hemc : c.employees_count with
  | none => simp [intCell]
  | some i =>
    have hi : 0 ≤ i := by
      rw [hemc] at hemp
      exact hemp
    simp [intCell, parseIntCell_intStr hi]

theorem optFieldErrs_csvField_none {key : String} {o : Option String}
    {f : String → Option String}
    (h : ∀ v, o = some v → v ≠ "" ∧ f v = none) :
    optFieldErrs key (csvField (optCell o)) f = [] := by
  cases o with
  | none => simp [optCell, csvField, optFieldErrs]
  | some v =>
    obtain ⟨hne, hf⟩ := h v rfl
    simp [optCell, csvField, hne, optFieldErrs, hf]

theorem csvPayload_export_name (c : CompanyRow) (hne : c.name ≠ "") :
    (csvPayload (exportRow c)).name = JVal.val c.name := by
  simp [csvPayload, exportRow, csvField, hne]

theorem schemaLoad_export (sAcc : Store) (c : CompanyRow) (hok : RowOk c) :
    schemaLoad sAcc false (csvPayload (exportRow c)) =
      fieldErrs sAcc false (csvPayload (exportRow c)) .name := by
  obtain ⟨hn1, hn2, hpar, horg, hact, hdesc, hlogo, haddr, hemail, hphone,
    hweb, hreg, htax, hcountry, hcity, hpostal, hemp⟩ := hok
  have hfdesc : fieldErrs sAcc false (csvPayload (exportRow c)) .description = [] := by
    apply optFieldErrs_csvField_none
    intro v hv
    rw [hv] at hdesc
    obtain ⟨hne, hlen⟩ := hdesc
    have hgt : ¬ strLen v > 500 := by omega
    exact ⟨hne, by simp [validate_description, hgt]⟩
  have hflogo : fieldErrs sAcc false (csvPayload (exportRow c)) .logo_url = [] := by
    apply optFieldErrs_csvField_none
    intro v hv
    rw [hv] at hlogo
    obtain ⟨hne, hpre, hlen⟩ := hlogo
    have hgt : ¬ strLen v > 255 := by omega
    exact ⟨hne, by simp [validate_logo_url, hpre, hgt]⟩
  have hfpar : fieldErrs sAcc false (csvPayload (exportRow c)) .parent_id = [] := by
    show optFieldErrs "parent_id" (csvField (optCell c.parent_id))
      (validate_parent_id sAcc) = []
    rw [hpar]
    simp [optCell, csvField, optFieldErrs]
  have hfaddr : fieldErrs sAcc false (csvPayload (exportRow c)) .address = [] := by
    apply optFieldErrs_csvField_none
    intro v hv
    rw [hv] at haddr
    obtain ⟨hne, hlen⟩ := haddr
    have hgt : ¬ strLen v > 255 := by omega
    exact ⟨hne, by simp [validate_address, hgt]⟩
  have hfemail : fieldErrs sAcc false (csvPayload (exportRow c)) .email = [] := by
    apply optFieldErrs_csvField_none
    intro v hv
    rw [hv] at hemail
    obtain ⟨hne, hlen, hat⟩ := hemail
    have hgt : ¬ strLen v > 100 := by omega
    exact ⟨hne, by simp [validate_email, hgt, hat]⟩
  have hfphone : fieldErrs sAcc false (csvPayload (exportRow c)) .phone_number = [] := by
    apply optFieldErrs_csvField_none
    intro v hv
    rw [hv] at hphone
    obtain ⟨hne, hlen⟩ := hphone
    have hgt : ¬ strLen v > 20 := by omega
    exact ⟨hne, by simp [validate_phone_number, hgt]⟩
  have hfweb : fieldErrs sAcc false (csvPayload (exportRow c)) .website = [] := by
    apply optFieldErrs_csvField_none
    intro v hv
    rw [hv] at hweb
    obtain ⟨hne, hpre, hlen⟩ := hweb
    have hgt : ¬ strLen v > 100 := by omega
    exact ⟨hne, by simp [validate_website, hpre, hgt]⟩
  have hfreg : fieldErrs sAcc false (csvPayload (exportRow c)) .registration_number = [] := by
    apply optFieldErrs_csvField_none
    intro v hv
    rw [hv] at hreg
    obtain ⟨hne, hlen⟩ := hreg
    have hgt : ¬ strLen v > 100 := by omega
    exact ⟨hne, by simp [validate_registration_number, hgt]⟩
  have hftax : fieldErrs sAcc false (csvPayload (exportRow c)) .tax_id = [] := by
    apply optFieldErrs_csvField_none
    intro v hv
    rw [hv] at htax
    obtain ⟨hne, hlen⟩ := htax
    have hgt : ¬ strLen v > 50 := by omega
    exact ⟨hne, by simp [validate_tax_id, hgt]⟩
  have hfcountry : fieldErrs sAcc false (csvPayload (exportRow c)) .country = [] := by
    apply optFieldErrs_csvField_none
    intro v hv
    rw [hv] at hcountry
    obtain ⟨hne, hlen⟩ := hcountry
    have hgt : ¬ strLen v > 100 := by omega
    exact ⟨hne, by simp [validate_country, hgt]⟩
  have hfcity : fieldErrs sAcc false (csvPayload (exportRow c)) .city = [] := by
    apply optFieldErrs_csvField_none
    intro v hv
    rw [hv] at hcity
    obtain ⟨hne, hlen⟩ := hcity
    have hgt : ¬ strLen v > 100 := by omega
    exact ⟨hne, by simp [validate_city, hgt]⟩
  have hfpostal : fieldErrs sAcc false (csvPayload (exportRow c)) .postal_code = [] := by
    apply optFieldErrs_csvField_none
    intro v hv
    rw [hv] at hpostal
    obtain ⟨hne, hlen⟩ := hpostal
    have hgt : ¬ strLen v > 20 := by omega
    exact ⟨hne, by simp [validate_postal_code, hgt]⟩
  have hfemp : fieldErrs sAcc false (csvPayload (exportRow c)) .employees_count = [] := by
    show optFieldErrs "employees_count" (csvPayload (exportRow c)).employees_count
      validate_employees_count = []
    cases hemc : c.employees_count with
    | none =>
      have : (csvPayload (exportRow c)).employees_count = JVal.null := by
        simp [csvPayload, exportRow, hemc, intCell]
        decide
      rw [this]
      rfl
    | some i =>
      have hi : 0 ≤ i := by rw [hemc] at hemp; exact hemp
      have : (csvPayload (exportRow c)).employees_count = JVal.val i := by
        simp [csvPayload, exportRow, hemc, intCell, parseIntCell_intStr hi]
      rw [this]
      have hnl : ¬ i < 0 := by omega
      simp [optFieldErrs, validate_employees_count, hnl]
  rw [schemaLoad_unfold, hfdesc, hflogo, hfpar, hfaddr, hfemail, hfphone,
    hfweb, hfreg, hftax, hfcountry, hfcity, hfpostal, hfemp]
  simp

theorem loadCsv_export_ok (sAcc : Store) (c : CompanyRow) (hok : RowOk c)
    (hname : ∀ r ∈ sAcc, r.name ≠ c.name) :
    loadCsv sAcc (exportRow c) = .ok (csvPayload (exportRow c)) := by
  have hds := csvDeserErrs_exportRow c hok
  have hsl := schemaLoad_export sAcc c hok
  have hgbn : Company.get_by_name sAcc c.name = none :=
    List.find?_eq_none.mpr (fun r hr => by simpa using hname r hr)
  have hv : validate_name sAcc c.name = none := by
    have hgt : ¬ strLen c.name > 100 := by
      have := hok.2.1
      omega
    simp [validate_name, hok.1, hgbn, hgt]
  have hnc : fieldErrs sAcc false (csvPayload (exportRow c)) .name = [] := by
    simp [fieldErrs, csvPayload_export_name c hok.1, hv]
  simp [loadCsv, hds, hsl, hnc]

theorem csvField_optCell_get {o : Option String}
    (h : ∀ v, o = some v → v ≠ "") : (csvField (optCell o)).get = o := by
  cases o with
  | none => simp [optCell, csvField, JVal.get]
  | some v => simp [optCell, csvField, h v rfl, JVal.get]

theorem createArgs_export (c : CompanyRow) (hok : RowOk c) :
    createArgsOfPayload (csvPayload (exportRow c)) =
      { name := c.name, description := c.description, logo_url := c.logo_url,
        parent_id := c.parent_id, address := c.address, email := c.email,
        phone_number := c.phone_number, website := c.website,
        registration_number := c.registration_number, tax_id := c.tax_id,
        country := c.country, city := c.city, postal_code := c.postal_code,
        is_active := true, employees_count := c.employees_count } := by
  obtain ⟨hn1, hn2, hpar, horg, hact, hdesc, hlogo, haddr, hemail, hphone,
    hweb, hreg, htax, hcountry, hcity, hpostal, hemp⟩ := hok
  have hemc : (csvPayload (exportRow c)).employees_count.get = c.employees_count := by
    cases hemc : c.employees_count with
    | none =>
      have : (csvPayload (exportRow c)).employees_count = JVal.null := by
        simp [csvPayload, exportRow, hemc, intCell]
        decide
      rw [this]; rfl
    | some i =>
      have hi : 0 ≤ i := by rw [hemc] at hemp; exact hemp
      have : (csvPayload (exportRow c)).employees_count = JVal.val i := by
        simp [csvPayload, exportRow, hemc, intCell, parseIntCell_intStr hi]
      rw [this]; rfl
  have e2 : (csvPayload (exportRow c)).description.get = c.description :=
    csvField_optCell_get (fun v hv => by rw [hv] at hdesc; exact hdesc.1)
  have e3 : (csvPayload (exportRow c)).logo_url.get = c.logo_url :=
    csvField_optCell_get (fun v hv => by rw [hv] at hlogo; exact hlogo.1)
  have e4 : (csvPayload (exportRow c)).parent_id.get = c.parent_id :=
    csvField_optCell_get (fun v hv => by simp [hpar] at hv)
  have e5 : (csvPayload (exportRow c)).address.get = c.address :=
    csvField_optCell_get (fun v hv => by rw [hv] at haddr; exact haddr.1)
  have e6 : (csvPayload (exportRow c)).email.get = c.email :=
    csvField_optCell_get (fun v hv => by rw [hv] at hemail; exact hemail.1)
  have e7 : (csvPayload (exportRow c)).phone_number.get = c.phone_number :=
    csvField_optCell_get (fun v hv => by rw [hv] at hphone; exact hphone.1)
  have e8 : (csvPayload (exportRow c)).website.get = c.website :=
    csvField_optCell_get (fun v hv => by rw [hv] at hweb; exact hweb.1)
  have e9 : (csvPayload (exportRow c)).registration_number.get =
      c.registration_number :=
    csvField_optCell_get (fun v hv => by rw [hv] at hreg; exact hreg.1)
  have e10 : (csvPayload (exportRow c)).tax_id.get = c.tax_id :=
    csvField_optCell_get (fun v hv => by rw [hv] at htax; exact htax.1)
  have e11 : (csvPayload (exportRow c)).country.get = c.country :=
    csvField_optCell_get (fun v hv => by rw [hv] at hcountry; exact hcountry.1)
  have e12 : (csvPayload (exportRow c)).city.get = c.city :=
    csvField_optCell_get (fun v hv => by rw [hv] at hcity; exact hcity.1)
  have e13 : (csvPayload (exportRow c)).postal_code.get = c.postal_code :=
    csvField_optCell_get (fun v hv => by rw [hv] at hpostal; exact hpostal.1)
  simp only [createArgsOfPayload, csvPayload_export_name c hn1, e2, e3, e4,
    e5, e6, e7, e8, e9, e10, e11, e12, e13, hemc]

theorem create_export_row (sAcc : Store) (c : CompanyRow) (newId : String)
    (now : Nat) (hok : RowOk c) (hfresh : ∀ r ∈ sAcc, r.id ≠ newId) :
    Company.create sAcc newId now (createArgsOfPayload (csvPayload (exportRow c))) =
      .ok ({ c with id := newId, created_at := some now, updated_at := some now },
        sAcc ++
          [{ c with id := newId, created_at := some now, updated_at := some now }]) := by
  rw [createArgs_export c hok]
  have hany : sAcc.any (fun r => r.id == newId) = false := by
    rw [List.any_eq_false]
    intro r hr
    simpa using hfresh r hr
  simp only [Company.create, hany, Bool.false_eq_true, if_false]
  obtain ⟨hn1, hn2, hpar, horg, hact, _, _, _, _, _, _, _, _, _, _, _, _⟩ := hok
  rw [horg, hact]

theorem loadCsv_export_dup (sAcc : Store) (c : CompanyRow) (hok : RowOk c)
    (hdup : (Company.get_by_name sAcc c.name).isSome = true) :
    loadCsv sAcc (exportRow c) = .error [("name", "Name must be unique.")] := by
  have hds := csvDeserErrs_exportRow c hok
  have hsl := schemaLoad_export sAcc c hok
  have hnc : fieldErrs sAcc false (csvPayload (exportRow c)) .name =
      [("name", "Name must be unique.")] := by
    simp [fieldErrs, csvPayload_export_name c hok.1, validate_name, hok.1, hdup]
  simp [loadCsv, hds, hsl, hnc]

theorem reIdx_names (ids : Nat → String) (now : Nat) :
    ∀ (cs : List CompanyRow) (k : Nat) (c : CompanyRow), c ∈ cs →
      ∃ r ∈ reIdx ids now k cs, r.name = c.name := by
  intro cs
  induction cs with
  | nil => intro k c hc; cases hc
  | cons x rest ih =>
    intro k c hc
    rcases List.mem_cons.mp hc with hc | hc
    · subst hc
      refine ⟨{ c with id := ids k, created_at := some now, updated_at := some now }, ?_, rfl⟩
      simp [reIdx]
    · obtain ⟨r, hr, hrn⟩ := ih (k + 1) c hc
      exact ⟨r, by simp [reIdx, hr], hrn⟩

theorem reIdx_forall₂ (ids : Nat → String) (now : Nat) :
    ∀ (cs : List CompanyRow) (k : Nat),
      List.Forall₂ sameButMeta cs (reIdx ids now k cs) := by
  intro cs
  induction cs with
  | nil => intro k; exact List.Forall₂.nil
  | cons x rest ih =>
    intro k
    refine List.Forall₂.cons ?_ (ih (k + 1))
    exact ⟨rfl, rfl, rfl, rfl, rfl, rfl, rfl, rfl, rfl, rfl, rfl, rfl, rfl,
      rfl, rfl, rfl⟩

theorem export_import_loop (ids : Nat → String) (now : Nat) :
    ∀ (cs : List CompanyRow) (sAcc : Store) (count idx : Nat)
      (errs : List (Nat × List (String × String))),
      (∀ c ∈ cs, RowOk c) →
      List.Pairwise (fun a b => a.name ≠ b.name) cs →
      (∀ c ∈ cs, ∀ r ∈ sAcc, r.name ≠ c.name) →
      Avoids ids sAcc count cs.length →
      importLoop loadCsv ids now ⟨count, errs, sAcc, false⟩ idx (cs.map exportRow) =
        ⟨count + cs.length, errs, sAcc ++ reIdx ids now count cs, false⟩ := by
  intro cs
  induction cs with
  | nil =>
    intro sAcc count idx errs _ _ _ _
    simp [importLoop, reIdx]
  | cons c rest ih =>
    intro sAcc count idx errs hok hpw hnames hav
    have hOkc : RowOk c := hok c (by simp)
    have hload := loadCsv_export_ok sAcc c hOkc
      (fun r hr => hnames c (by simp) r hr)
    have hfresh : ∀ r ∈ sAcc, r.id ≠ ids count := avoids_head hav
    have hcr := create_export_row sAcc c (ids count) now hOkc hfresh
    obtain ⟨row, hrow⟩ : ∃ row : CompanyRow,
        row = { c with id := ids count, created_at := some now, updated_at := some now } :=
      ⟨_, rfl⟩
    rw [← hrow] at hcr
    have hnames' : ∀ x ∈ rest, ∀ r ∈ sAcc ++ [row], r.name ≠ x.name := by
      intro x hx r hr
      rcases List.mem_append.mp hr with hr | hr
      · exact hnames x (by simp [hx]) r hr
      · have hrq : r = row := by simpa using hr
        subst hrq
        rw [hrow]
        exact (List.pairwise_cons.mp hpw).1 x hx
    have hav' : Avoids ids (sAcc ++ [row]) (count + 1) rest.length :=
      avoids_step hav (by rw [hrow])
    simp only [List.map_cons, importLoop, hload, hcr]
    rw [ih (sAcc ++ [row]) (count + 1) (idx + 1) errs
      (fun x hx => hok x (by simp [hx])) (List.pairwise_cons.mp hpw).2
      hnames' hav']
    have e1 : count + 1 + rest.length = count + (c :: rest).length := by
      simp [List.length_cons]
      omega
    have e2 : (sAcc ++ [row]) ++ reIdx ids now (count + 1) rest =
        sAcc ++ reIdx ids now count (c :: rest) := by
      rw [hrow]
      simp [reIdx]
    rw [e1, e2]

theorem reimport_loop (ids2 : Nat → String) (now2 : Nat) :
    ∀ (cs : List CompanyRow) (sAcc : Store) (count idx : Nat)
      (errs : List (Nat × List (String × String))),
      (∀ c ∈ cs, RowOk c) →
      (∀ c ∈ cs, ∃ r ∈ sAcc, r.name = c.name) →
      importLoop loadCsv ids2 now2 ⟨count, errs, sAcc, false⟩ idx
        (cs.map exportRow) =
        ⟨count, errs ++ dupErrs idx cs.length, sAcc, false⟩ := by
  intro cs
  induction cs with
  | nil =>
    intro sAcc count idx errs _ _
    simp [importLoop, dupErrs]
  | cons c rest ih =>
    intro sAcc count idx errs hok hdup
    have hOkc : RowOk c := hok c (by simp)
    have hsome : (Company.get_by_name sAcc c.name).isSome = true :=
      get_by_name_isSome (hdup c (by simp))
    have hload := loadCsv_export_dup sAcc c hOkc hsome
    simp only [List.map_cons, importLoop, hload]
    rw [ih sAcc count (idx + 1) (errs ++ [(idx, [("name", "Name must be unique.")])])
      (fun x hx => hok x (by simp [hx])) (fun x hx => hdup x (by simp [hx]))]
    simp [dupErrs]

/-- C5 counterexample: the round trip is not field-equivalent for every store —
a record stored with is_active false re-imports with is_active true (the
create call made by the importer omits is_active, storing the default),
even though is_active is not among the excepted id/created_at/updated_at
fields. -/
theorem csv_roundtrip_cex :
    (ImportCSVResource.post [] (fun _ => "n1") 5
        (ExportCSVResource.get
          [{ id := "o1", name := "Acme", is_active := false }])).1.status = 200 ∧
    (ImportCSVResource.post [] (fun _ => "n1") 5
        (ExportCSVResource.get
          [{ id := "o1", name := "Acme", is_active := false }])).2.map
      (fun r => r.is_active) = [true] ∧
    ([{ id := "o1", name := "Acme", is_active := false }] : Store).map
      (fun r => r.is_active) = [false] := by
  decide

/-- C5 (amended): for stores whose records have pairwise-distinct non-empty
names, satisfy every field validator, carry the creation defaults for
parent_id / organization_id / is_active, and have no empty-string optional
field, exporting to CSV and importing into an empty store succeeds for every
row (status 200) and reproduces each record except for fresh ids and
timestamps; re-importing the same file then fails every row with a
name-uniqueness error keyed by consecutive row indices (status 400,
nothing imported, store unchanged). -/
theorem csv_roundtrip_amended (s0 : Store) (ids ids2 : Nat → String)
    (now now2 : Nat) (hok : StoreOk s0) (hav : Avoids ids [] 0 s0.length) :
    (ImportCSVResource.post [] ids now (ExportCSVResource.get s0)).1.status = 200 ∧
    (ImportCSVResource.post [] ids now (ExportCSVResource.get s0)).1.imported = s0.length ∧
    (ImportCSVResource.post [] ids now (ExportCSVResource.get s0)).1.errors = [] ∧
    (ImportCSVResource.post [] ids now (ExportCSVResource.get s0)).2 = reIdx ids now 0 s0 ∧
    List.Forall₂ sameButMeta s0 (ImportCSVResource.post [] ids now (ExportCSVResource.get s0)).2 ∧
    (ImportCSVResource.post (reIdx ids now 0 s0) ids2 now2 (ExportCSVResource.get s0)).1.imported = 0 ∧
    (ImportCSVResource.post (reIdx ids now 0 s0) ids2 now2 (ExportCSVResource.get s0)).1.errors = dupErrs 0 s0.length ∧
    (ImportCSVResource.post (reIdx ids now 0 s0) ids2 now2 (ExportCSVResource.get s0)).2 = reIdx ids now 0 s0 ∧
    (s0 ≠ [] → (ImportCSVResource.post (reIdx ids now 0 s0) ids2 now2 (ExportCSVResource.get s0)).1.status = 400) := by
  have hloop1 := export_import_loop ids now s0 [] 0 0 [] hok.2 hok.1
    (fun c hc r hr => absurd hr (List.not_mem_nil r)) hav
  have hpost1 : ImportCSVResource.post [] ids now (ExportCSVResource.get s0) =
      ({ status := 200, imported := 0 + s0.length, errors := [] },
       [] ++ reIdx ids now 0 s0) := by
    show importOutcomeOf
      (importLoop loadCsv ids now ⟨0, [], [], false⟩ 0 (s0.map exportRow)) = _
    rw [hloop1]
    rfl
  have hdups : ∀ c ∈ s0, ∃ r ∈ reIdx ids now 0 s0, r.name = c.name :=
    fun c hc => reIdx_names ids now s0 0 c hc
  have hloop2 := reimport_loop ids2 now2 s0 (reIdx ids now 0 s0) 0 0 []
    hok.2 hdups
  have hpost2 : ImportCSVResource.post (reIdx ids now 0 s0) ids2 now2
      (ExportCSVResource.get s0) =
      importOutcomeOf ⟨0, [] ++ dupErrs 0 s0.length, reIdx ids now 0 s0, false⟩ := by
    show importOutcomeOf
      (importLoop loadCsv ids2 now2 ⟨0, [], reIdx ids now 0 s0, false⟩ 0
        (s0.map exportRow)) = _
    rw [hloop2]
  have hsecond :
      (importOutcomeOf ⟨0, [] ++ dupErrs 0 s0.length, reIdx ids now 0 s0, false⟩).1.imported = 0 ∧
      (importOutcomeOf ⟨0, [] ++ dupErrs 0 s0.length, reIdx ids now 0 s0, false⟩).1.errors = dupErrs 0 s0.length ∧
      (importOutcomeOf ⟨0, [] ++ dupErrs 0 s0.length, reIdx ids now 0 s0, false⟩).2 = reIdx ids now 0 s0 ∧
      (s0 ≠ [] →
        (importOutcomeOf ⟨0, [] ++ dupErrs 0 s0.length, reIdx ids now 0 s0, false⟩).1.status = 400) := by
    by_cases hnil : s0 = []
    · subst hnil
      exact ⟨rfl, rfl, rfl, fun hne => absurd rfl hne⟩
    · obtain ⟨c, rest, hcr⟩ := List.exists_cons_of_ne_nil hnil
      subst hcr
      exact ⟨rfl, rfl, rfl, fun _ => rfl⟩
  refine ⟨?_, ?_, ?_, ?_, ?_, ?_, ?_, ?_, ?_⟩
  · rw [hpost1]
  · rw [hpost1]; simp
  · rw [hpost1]
  · rw [hpost1]; simp
  · rw [hpost1]
    simpa using reIdx_forall₂ ids now s0 0
  · rw [hpost2]; exact hsecond.1
  · rw [hpost2]; exact hsecond.2.1
  · rw [hpost2]; exact hsecond.2.2.1
  · rw [hpost2]; exact hsecond.2.2.2

/-- Witness for csv_roundtrip_amended at a concrete one-record store. -/
theorem csv_roundtrip_amended_wit :
    (ImportCSVResource.post [] (fun _ => "n1") 5
        (ExportCSVResource.get [{ id := "o1", name := "Acme", description := some "d" }])).1.status = 200 ∧
    (ImportCSVResource.post [] (fun _ => "n1") 5
        (ExportCSVResource.get [{ id := "o1", name := "Acme", description := some "d" }])).1.imported = 1 ∧
    (ImportCSVResource.post [] (fun _ => "n1") 5
        (ExportCSVResource.get [{ id := "o1", name := "Acme", description := some "d" }])).1.errors = [] ∧
    (ImportCSVResource.post [] (fun _ => "n1") 5
        (ExportCSVResource.get [{ id := "o1", name := "Acme", description := some "d" }])).2 =
      reIdx (fun _ => "n1") 5 0 [{ id := "o1", name := "Acme", description := some "d" }] ∧
    List.Forall₂ sameButMeta [{ id := "o1", name := "Acme", description := some "d" }]
      (ImportCSVResource.post [] (fun _ => "n1") 5
        (ExportCSVResource.get [{ id := "o1", name := "Acme", description := some "d" }])).2 ∧
    (ImportCSVResource.post
        (reIdx (fun _ => "n1") 5 0 [{ id := "o1", name := "Acme", description := some "d" }])
        (fun _ => "n2") 6
        (ExportCSVResource.get [{ id := "o1", name := "Acme", description := some "d" }])).1.imported = 0 ∧
    (ImportCSVResource.post
        (reIdx (fun _ => "n1") 5 0 [{ id := "o1", name := "Acme", description := some "d" }])
        (fun _ => "n2") 6
        (ExportCSVResource.get [{ id := "o1", name := "Acme", description := some "d" }])).1.errors =
      dupErrs 0 1 ∧
    (ImportCSVResource.post
        (reIdx (fun _ => "n1") 5 0 [{ id := "o1", name := "Acme", description := some "d" }])
        (fun _ => "n2") 6
        (ExportCSVResource.get [{ id := "o1", name := "Acme", description := some "d" }])).2 =
      reIdx (fun _ => "n1") 5 0 [{ id := "o1", name := "Acme", description := some "d" }] ∧
    (([{ id := "o1", name := "Acme", description := some "d" }] : Store) ≠ [] →
      (ImportCSVResource.post
        (reIdx (fun _ => "n1") 5 0 [{ id := "o1", name := "Acme", description := some "d" }])
        (fun _ => "n2") 6
        (ExportCSVResource.get [{ id := "o1", name := "Acme", description := some "d" }])).1.status = 400) :=
  csv_roundtrip_amended
    [{ id := "o1", name := "Acme", description := some "d" }]
    (fun _ => "n1") (fun _ => "n2") 5 6 (by decide) (by decide)
